import Mathlib

/-!
Verification of the grading-pipeline core of `app.py` (NextGenAiAutoGrader).

The Python source is shallowly embedded: pure fragments become Lean
functions, the SQLite user row becomes an explicit record threaded through
the quota gate, dictionaries returned via `jsonify` become association
lists, exceptions become `Except`/`Option` results, and the network call to
the model provider becomes an explicit oracle `String → ModelOutcome`
passed in as a parameter.
-/

set_option maxHeartbeats 1600000
set_option maxRecDepth 2000

namespace AutoGrader

/-- A Python value as it appears in the JSON dictionaries the app returns
(only strings and integers occur). -/
inductive PyVal
  | s (v : String)
  | i (v : Nat)
  deriving DecidableEq

/-- An association-list stand-in for the Python dicts returned by
`update_user_usage` and the route handlers. -/
abbrev PyDict := List (String × PyVal)

/-- Dict lookup in the style of `d.get(k)`, first matching key. -/
def dlookup (k : String) : PyDict → Option PyVal
  | [] => none
  | (k', v) :: rest => if k' = k then some v else dlookup k rest

/-- The config constant `FREE_DAILY_LIMIT = 5`. -/
def FREE_DAILY_LIMIT : Nat := 5

/-- The columns of a `users` row that `update_user_usage` touches.
`uses_today` is `INTEGER NOT NULL DEFAULT 0`; `last_use_date` is a nullable
`TEXT` column (NULL until first use), hence `Option String`. -/
structure UserRow where
  uses_today : Nat
  last_use_date : Option String
  plan : String
  deriving DecidableEq

/-- The denial message from `update_user_usage`. -/
def freeLimitMsg : String :=
  "Free plan daily limit reached. Upgrade to Pro for unlimited grading."

/-- The quota gate `update_user_usage(user_id)` from `app.py` lines 254-286, with the
database restricted to the selected user's row (`none` models a missing
row) and `today` standing for `date.today().isoformat()`.  Returns the
dict handed back to the caller together with the post-call row. -/
def update_user_usage (row? : Option UserRow) (today : String) :
    PyDict × Option UserRow :=
  match row? with
  | none => ([("error", .s "User not found")], none)
  | some row =>
    let uses_today := if row.last_use_date ≠ some today then 0 else row.uses_today
    if row.plan = "free" ∧ FREE_DAILY_LIMIT ≤ uses_today then
      ([("error", .s freeLimitMsg)], some row)
    else
      ([("plan", .s row.plan), ("uses_today", .i (uses_today + 1)),
        ("limit", .i FREE_DAILY_LIMIT)],
       some { row with uses_today := uses_today + 1, last_use_date := some today })

/-- C2: at `limit - 1` today, one call succeeds and persists the limit; a
second same-day call is denied and leaves the stored row unchanged. -/
theorem quota_boundary_one_succeeds_then_denied (today : String) (r : UserRow)
    (hplan : r.plan = "free")
    (huses : r.uses_today = FREE_DAILY_LIMIT - 1)
    (hdate : r.last_use_date = some today) :
    update_user_usage (some r) today =
      ([("plan", .s "free"), ("uses_today", .i FREE_DAILY_LIMIT),
        ("limit", .i FREE_DAILY_LIMIT)],
       some { r with uses_today := FREE_DAILY_LIMIT, last_use_date := some today }) ∧
    update_user_usage
        (some { r with uses_today := FREE_DAILY_LIMIT, last_use_date := some today }) today =
      ([("error", .s freeLimitMsg)],
       some { r with uses_today := FREE_DAILY_LIMIT, last_use_date := some today }) := by
  constructor
  · simp [update_user_usage, hplan, huses, hdate, FREE_DAILY_LIMIT]
  · simp [update_user_usage, hplan, FREE_DAILY_LIMIT]

/-- Witness for C2 at a concrete row. -/
theorem quota_boundary_one_succeeds_then_denied_witness :
    update_user_usage (some ⟨4, some "2026-10-12", "free"⟩) "2026-10-12" =
      ([("plan", .s "free"), ("uses_today", .i 5), ("limit", .i 5)],
       some ⟨5, some "2026-10-12", "free"⟩) ∧
    update_user_usage (some ⟨5, some "2026-10-12", "free"⟩) "2026-10-12" =
      ([("error", .s freeLimitMsg)], some ⟨5, some "2026-10-12", "free"⟩) :=
  quota_boundary_one_succeeds_then_denied "2026-10-12"
    ⟨4, some "2026-10-12", "free"⟩ rfl rfl rfl

/-- C3: any tier, stale (or missing) last-use date: the stored count is
ignored, the call succeeds, and usage 1 with today's date is persisted. -/
theorem quota_lazy_daily_reset (today : String) (r : UserRow)
    (hdate : r.last_use_date ≠ some today) :
    update_user_usage (some r) today =
      ([("plan", .s r.plan), ("uses_today", .i 1), ("limit", .i FREE_DAILY_LIMIT)],
       some { r with uses_today := 1, last_use_date := some today }) := by
  simp [update_user_usage, hdate, FREE_DAILY_LIMIT]

/-- Witness for C3: a free user stuck at count 9000 with a stale date. -/
theorem quota_lazy_daily_reset_witness :
    update_user_usage (some ⟨9000, some "2026-10-11", "free"⟩) "2026-10-12" =
      ([("plan", .s "free"), ("uses_today", .i 1), ("limit", .i 5)],
       some ⟨1, some "2026-10-12", "free"⟩) :=
  quota_lazy_daily_reset "2026-10-12" ⟨9000, some "2026-10-11", "free"⟩ (by decide)

/-! ### Concurrency model for the quota gate

`update_user_usage` issues its `SELECT` and its `UPDATE` as two separate
statements on a fresh connection, with no transaction spanning them, so
two concurrent requests may interleave freely between the read and the
write.  We split the function into its read phase (`usageFetch`), its pure
decision (`usageAct`, everything between the fetch and the `UPDATE`), and
its write phase (`usageWrite`), and prove the split agrees with the
sequential function. -/

/-- The `SELECT uses_today, last_use_date, plan FROM users WHERE id = ?`
read phase: returns the row as currently stored. -/
def usageFetch (db : Option UserRow) : Option UserRow := db

/-- The pure decision of `update_user_usage` on a fetched row: the dict it
returns, and `some n` when it goes on to execute the `UPDATE` storing
usage `n` (with today's date), `none` when it returns without writing. -/
def usageAct (row? : Option UserRow) (today : String) : PyDict × Option Nat :=
  match row? with
  | none => ([("error", .s "User not found")], none)
  | some row =>
    let uses_today := if row.last_use_date ≠ some today then 0 else row.uses_today
    if row.plan = "free" ∧ FREE_DAILY_LIMIT ≤ uses_today then
      ([("error", .s freeLimitMsg)], none)
    else
      ([("plan", .s row.plan), ("uses_today", .i (uses_today + 1)),
        ("limit", .i FREE_DAILY_LIMIT)], some (uses_today + 1))

/-- The `UPDATE users SET uses_today = ?, last_use_date = ? WHERE id = ?`
write phase, applied to whatever the row holds at commit time. -/
def usageWrite (db : Option UserRow) (today : String) (n : Nat) : Option UserRow :=
  db.map fun r => { r with uses_today := n, last_use_date := some today }

/-- Sanity: run sequentially against an unchanging row, the
fetch/act/write split is exactly `update_user_usage`. -/
theorem usage_split_agrees (db : Option UserRow) (today : String) :
    update_user_usage db today =
      ((usageAct (usageFetch db) today).1,
       match (usageAct (usageFetch db) today).2 with
       | some n => usageWrite db today n
       | none => db) := by
  cases db with
  | none => rfl
  | some row =>
    by_cases h : row.plan = "free" ∧
        FREE_DAILY_LIMIT ≤ (if row.last_use_date ≠ some today then 0 else row.uses_today)
    · simp only [update_user_usage, usageAct, usageFetch, usageWrite, if_pos h]
    · simp only [update_user_usage, usageAct, usageFetch, usageWrite, if_neg h]
      rfl

/-- One step of one of two concurrent `update_user_usage` calls (A and B)
for the same user: each call first reads the row, then decides and writes. -/
inductive RaceStep
  | readA | writeA | readB | writeB
  deriving DecidableEq

/-- Interleaving state: the stored row, each call's fetched row (once it
has read), and each call's returned dict (once it has finished). -/
structure RaceState where
  db : Option UserRow
  regA : Option (Option UserRow)
  regB : Option (Option UserRow)
  resA : Option PyDict
  resB : Option PyDict
  deriving DecidableEq

/-- Execute one step of the interleaved pair of calls.  A write step
before the matching read step does nothing (no such schedule arises). -/
def raceStep (today : String) (st : RaceState) : RaceStep → RaceState
  | .readA => { st with regA := some (usageFetch st.db) }
  | .readB => { st with regB := some (usageFetch st.db) }
  | .writeA =>
    match st.regA with
    | none => st
    | some row? =>
      let r := usageAct row? today
      { st with resA := some r.1,
                db := match r.2 with
                      | some n => usageWrite st.db today n
                      | none => st.db }
  | .writeB =>
    match st.regB with
    | none => st
    | some row? =>
      let r := usageAct row? today
      { st with resB := some r.1,
                db := match r.2 with
                      | some n => usageWrite st.db today n
                      | none => st.db }

/-- Run a whole schedule of steps. -/
def runRace (today : String) (sched : List RaceStep) (st : RaceState) : RaceState :=
  sched.foldl (raceStep today) st

/-- Initial state for the boundary scenario of C4: one free-tier row at
`limit - 1` with today's date, neither call started. -/
def raceInit (today : String) : RaceState :=
  ⟨some ⟨FREE_DAILY_LIMIT - 1, some today, "free"⟩, none, none, none, none⟩

/-- A call's result dict means "authorized" when it has no "error" key. -/
def authDict (res : Option PyDict) : Prop :=
  ∃ d, res = some d ∧ dlookup "error" d = none

/-- Counterexample to C4: in the schedule where both calls read before
either writes, BOTH calls at `limit - 1` are authorized — the
check-then-increment is not atomic. -/
theorem race_both_authorized_counterexample :
    authDict (runRace "2026-10-12"
        [.readA, .readB, .writeA, .writeB] (raceInit "2026-10-12")).resA ∧
    authDict (runRace "2026-10-12"
        [.readA, .readB, .writeA, .writeB] (raceInit "2026-10-12")).resB := by
  refine ⟨⟨[("plan", .s "free"), ("uses_today", .i 5), ("limit", .i 5)], ?_, rfl⟩,
         ⟨[("plan", .s "free"), ("uses_today", .i 5), ("limit", .i 5)], ?_, rfl⟩⟩ <;> rfl

/-- Row invariant for the race analysis: a free-plan row whose stored
count never exceeds the limit. -/
def rowBounded (r : UserRow) : Prop :=
  r.uses_today ≤ FREE_DAILY_LIMIT ∧ r.plan = "free"

/-- Register invariant: any fetched row satisfies `rowBounded`. -/
def regBounded : Option (Option UserRow) → Prop
  | none => True
  | some none => True
  | some (some r) => rowBounded r

/-- Full state invariant for the race analysis. -/
def raceInv (st : RaceState) : Prop :=
  (∀ r, st.db = some r → rowBounded r) ∧ regBounded st.regA ∧ regBounded st.regB

/-- A write by either call stores at most the limit: the stored count it
persists is `uses + 1` for a `uses` it was authorized on, hence `< limit`. -/
theorem usageAct_write_le (row? : Option UserRow) (today : String) (n : Nat)
    (hb : ∀ r, row? = some r → rowBounded r)
    (hw : (usageAct row? today).2 = some n) :
    n ≤ FREE_DAILY_LIMIT := by
  cases row? with
  | none => exact absurd (show (none : Option Nat) = some n from hw) (by simp)
  | some row =>
    obtain ⟨hle, hplan⟩ := hb row rfl
    by_cases h : row.plan = "free" ∧
        FREE_DAILY_LIMIT ≤ (if row.last_use_date ≠ some today then 0 else row.uses_today)
    · simp only [usageAct, if_pos h] at hw
      exact absurd (show (none : Option Nat) = some n from hw) (by simp)
    · simp only [usageAct, if_neg h] at hw
      have hn : (if row.last_use_date ≠ some today then 0 else row.uses_today) + 1 = n :=
        Option.some.inj hw
      rw [hplan] at h
      push_neg at h
      have h4 : (if row.last_use_date ≠ some today then 0 else row.uses_today) <
          FREE_DAILY_LIMIT := h rfl
      omega

/-- Each `raceStep` preserves the invariant. -/
theorem raceStep_inv (today : String) (st : RaceState) (s : RaceStep)
    (h : raceInv st) : raceInv (raceStep today st s) := by
  obtain ⟨hdb, hA, hB⟩ := h
  cases s with
  | readA =>
    refine ⟨hdb, ?_, hB⟩
    cases hdbv : st.db with
    | none => simp [raceStep, usageFetch, hdbv, regBounded]
    | some r => simpa [raceStep, usageFetch, hdbv, regBounded] using hdb r hdbv
  | readB =>
    refine ⟨hdb, hA, ?_⟩
    cases hdbv : st.db with
    | none => simp [raceStep, usageFetch, hdbv, regBounded]
    | some r => simpa [raceStep, usageFetch, hdbv, regBounded] using hdb r hdbv
  | writeA =>
    cases hreg : st.regA with
    | none => simpa [raceStep, hreg] using ⟨hdb, hA, hB⟩
    | some row? =>
      refine ⟨?_, by simpa [raceStep, hreg] using hA, by simpa [raceStep, hreg] using hB⟩
      intro r hr
      simp only [raceStep, hreg] at hr
      cases hw : (usageAct row? today).2 with
      | none => simp [hw] at hr; exact hdb r hr
      | some n =>
        simp [hw, usageWrite] at hr
        obtain ⟨r₀, hr₀, hr₀eq⟩ := hr
        have hb := hdb r₀ hr₀
        have hAr : regBounded (some row?) := hreg ▸ hA
        have hn := usageAct_write_le row? today n (by
          intro rr hrr
          subst hrr
          simpa [regBounded] using hAr) hw
        subst hr₀eq
        exact ⟨hn, hb.2⟩
  | writeB =>
    cases hreg : st.regB with
    | none => simpa [raceStep, hreg] using ⟨hdb, hA, hB⟩
    | some row? =>
      refine ⟨?_, by simpa [raceStep, hreg] using hA, by simpa [raceStep, hreg] using hB⟩
      intro r hr
      simp only [raceStep, hreg] at hr
      cases hw : (usageAct row? today).2 with
      | none => simp [hw] at hr; exact hdb r hr
      | some n =>
        simp [hw, usageWrite] at hr
        obtain ⟨r₀, hr₀, hr₀eq⟩ := hr
        have hb := hdb r₀ hr₀
        have hBr : regBounded (some row?) := hreg ▸ hB
        have hn := usageAct_write_le row? today n (by
          intro rr hrr
          subst hrr
          simpa [regBounded] using hBr) hw
        subst hr₀eq
        exact ⟨hn, hb.2⟩

/-- Amended C4: the gate is NOT atomic — the all-reads-first schedule
authorizes both boundary calls — yet in every schedule the stored count
of the free-tier row never exceeds the daily limit, because each write
persists the count computed from its own (possibly stale) read. -/
theorem race_not_atomic_but_bounded (today : String) :
    (authDict (runRace today [.readA, .readB, .writeA, .writeB] (raceInit today)).resA ∧
     authDict (runRace today [.readA, .readB, .writeA, .writeB] (raceInit today)).resB) ∧
    ∀ sched : List RaceStep, ∀ r : UserRow,
      (runRace today sched (raceInit today)).db = some r →
      r.uses_today ≤ FREE_DAILY_LIMIT := by
  constructor
  · constructor
    · refine ⟨[("plan", .s "free"), ("uses_today", .i 5), ("limit", .i 5)], ?_, rfl⟩
      simp [runRace, raceStep, raceInit, usageFetch, usageAct, usageWrite, FREE_DAILY_LIMIT]
    · refine ⟨[("plan", .s "free"), ("uses_today", .i 5), ("limit", .i 5)], ?_, rfl⟩
      simp [runRace, raceStep, raceInit, usageFetch, usageAct, usageWrite, FREE_DAILY_LIMIT]
  · intro sched
    have hinv : raceInv (runRace today sched (raceInit today)) := by
      induction sched using List.list_reverse_induction with
      | base =>
        refine ⟨?_, trivial, trivial⟩
        intro r hr
        simp [runRace, raceInit] at hr
        subst hr
        exact ⟨by simp [FREE_DAILY_LIMIT], rfl⟩
      | ind l e ih =>
        have hsplit : runRace today (l ++ [e]) (raceInit today) =
            raceStep today (runRace today l (raceInit today)) e := by
          simp [runRace]
        rw [hsplit]
        exact raceStep_inv today _ e ih
    exact fun r hr => (hinv.1 r hr).1

/-- Witness for the amended C4 theorem: the stored-count bound evaluated
on the concrete all-reads-first schedule. -/
theorem race_not_atomic_but_bounded_witness :
    (UserRow.mk 5 (some "2026-10-12") "free").uses_today ≤ FREE_DAILY_LIMIT :=
  (race_not_atomic_but_bounded "2026-10-12").2 [.readA, .readB, .writeA, .writeB]
    ⟨5, some "2026-10-12", "free"⟩ rfl

/-! ### Model invoker (`call_model`, lines 219-238)

The two candidate model names come from the environment (primary and
fallback); the outcome of the single non-streaming request issued to a
named model is abstracted as an oracle `attempt`.  Besides the result we
record the trace of models actually attempted. -/

/-- Outcome of one provider request: the returned text content, or the
`str(e)` of the exception it raised. -/
inductive ModelOutcome
  | success (text : String)
  | failure (err : String)
  deriving DecidableEq

/-- Python `str(x)` for the `last_error` variable (initially `None`). -/
def pyStrOfOpt : Option String → String
  | none => "None"
  | some s => s

/-- The `for model_name in (...)` loop of `call_model`: skip falsy (empty)
names, give each remaining candidate one attempt, return the first
success, remember the last error.  Also returns the list of models that
were actually attempted, in order. -/
def callModelLoop (attempt : String → ModelOutcome) :
    List String → Option String → Except String String × List String
  | [], last => (.error ("OpenAI call failed: " ++ pyStrOfOpt last), [])
  | m :: ms, last =>
    if m = "" then callModelLoop attempt ms last
    else
      match attempt m with
      | .success t => (.ok t, [m])
      | .failure e =>
        let r := callModelLoop attempt ms (some e)
        (r.1, m :: r.2)

/-- The invoker `call_model(full_prompt)`: iterate over `(PRIMARY_MODEL,
FALLBACK_MODEL)`; `.error` models the final `raise RuntimeError`. -/
def call_model (primary fallbk : String) (attempt : String → ModelOutcome) :
    Except String String × List String :=
  callModelLoop attempt [primary, fallbk] none

/-- C5: candidates are tried in order with unconfigured (empty) entries
skipped, each attempted exactly once; the first success is returned
immediately without touching later candidates; if every candidate fails,
the single error carries the last failure reason. -/
theorem call_model_fallback_policy (p f : String) (attempt : String → ModelOutcome)
    (t e₁ e₂ : String) :
    (p ≠ "" → attempt p = .success t →
      call_model p f attempt = (.ok t, [p])) ∧
    (p ≠ "" → f ≠ "" → attempt p = .failure e₁ → attempt f = .success t →
      call_model p f attempt = (.ok t, [p, f])) ∧
    (p ≠ "" → f ≠ "" → attempt p = .failure e₁ → attempt f = .failure e₂ →
      call_model p f attempt = (.error ("OpenAI call failed: " ++ e₂), [p, f])) ∧
    (p = "" → f ≠ "" → attempt f = .success t →
      call_model p f attempt = (.ok t, [f])) ∧
    (p = "" → f ≠ "" → attempt f = .failure e₂ →
      call_model p f attempt = (.error ("OpenAI call failed: " ++ e₂), [f])) ∧
    (p ≠ "" → f = "" → attempt p = .failure e₁ →
      call_model p f attempt = (.error ("OpenAI call failed: " ++ e₁), [p])) ∧
    (p = "" → f = "" →
      call_model p f attempt = (.error "OpenAI call failed: None", [])) := by
  refine ⟨?_, ?_, ?_, ?_, ?_, ?_, ?_⟩
  · intro hp ha
    simp [call_model, callModelLoop, hp, ha]
  · intro hp hf ha hb
    simp [call_model, callModelLoop, hp, hf, ha, hb]
  · intro hp hf ha hb
    simp [call_model, callModelLoop, hp, hf, ha, hb, pyStrOfOpt]
  · intro hp hf hb
    simp [call_model, callModelLoop, hp, hf, hb]
  · intro hp hf hb
    simp [call_model, callModelLoop, hp, hf, hb, pyStrOfOpt]
  · intro hp hf ha
    simp [call_model, callModelLoop, hp, hf, ha, pyStrOfOpt]
  · intro hp hf
    simp [call_model, callModelLoop, hp, hf, pyStrOfOpt]

/-- Witness for C5: primary fails, fallback succeeds. -/
theorem call_model_fallback_policy_witness :
    call_model "gpt-4o" "gpt-4o-mini"
        (fun m => if m = "gpt-4o" then .failure "boom" else .success "graded") =
      (.ok "graded", ["gpt-4o", "gpt-4o-mini"]) :=
  (call_model_fallback_policy "gpt-4o" "gpt-4o-mini"
      (fun m => if m = "gpt-4o" then .failure "boom" else .success "graded")
      "graded" "boom" "x").2.1 (by decide) (by decide) (by simp) (by simp)

/-! ### File text extraction (`extract_text_from_file`, lines 147-196)

The byte content of the upload is a `List Nat`; the `python-docx`,
`PyPDF2` and `openpyxl` readers are abstracted as oracles returning
`none` exactly when the library raises on the given bytes.  Text files
are decoded with `bytes.decode("utf-8", errors="ignore")`, embedded below
as a UTF-8 decoder whose error handler contributes `repl` (empty for
`ignore`) and skips the maximal valid subpart of the bad sequence. -/

/-- A UTF-8 continuation byte. -/
def isUtf8Cont (b : Nat) : Bool := 128 ≤ b && b ≤ 191

/-- Decode one UTF-8 sequence starting at byte `b` with lookahead `rest`:
returns the produced characters (`repl` on a malformed sequence) and how
many bytes of `rest` are additionally consumed. -/
def utf8Step (repl : List Char) (b : Nat) (rest : List Nat) : List Char × Nat :=
  if b < 128 then ([Char.ofNat b], 0)
  else if 194 ≤ b ∧ b ≤ 223 then
    match rest with
    | c1 :: _ =>
      if isUtf8Cont c1 then ([Char.ofNat ((b - 192) * 64 + (c1 - 128))], 1)
      else (repl, 0)
    | [] => (repl, 0)
  else if 224 ≤ b ∧ b ≤ 239 then
    match rest with
    | c1 :: rest2 =>
      if (if b = 224 then 160 ≤ c1 ∧ c1 ≤ 191
          else if b = 237 then 128 ≤ c1 ∧ c1 ≤ 159
          else isUtf8Cont c1 = true) then
        match rest2 with
        | c2 :: _ =>
          if isUtf8Cont c2 then
            ([Char.ofNat ((b - 224) * 4096 + (c1 - 128) * 64 + (c2 - 128))], 2)
          else (repl, 1)
        | [] => (repl, 1)
      else (repl, 0)
    | [] => (repl, 0)
  else if 240 ≤ b ∧ b ≤ 244 then
    match rest with
    | c1 :: rest2 =>
      if (if b = 240 then 144 ≤ c1 ∧ c1 ≤ 191
          else if b = 244 then 128 ≤ c1 ∧ c1 ≤ 143
          else isUtf8Cont c1 = true) then
        match rest2 with
        | c2 :: rest3 =>
          if isUtf8Cont c2 then
            match rest3 with
            | c3 :: _ =>
              if isUtf8Cont c3 then
                ([Char.ofNat ((b - 240) * 262144 + (c1 - 128) * 4096 +
                    (c2 - 128) * 64 + (c3 - 128))], 3)
              else (repl, 2)
            | [] => (repl, 2)
          else (repl, 1)
        | [] => (repl, 1)
      else (repl, 0)
    | [] => (repl, 0)
  else (repl, 0)

/-- Python `bytes.decode("utf-8", errors=...)`: `repl = []` is `ignore`,
`repl = [U+FFFD]` is `replace`. -/
def utf8Decode (repl : List Char) : List Nat → List Char
  | [] => []
  | b :: rest =>
    (utf8Step repl b rest).1 ++ utf8Decode repl (rest.drop (utf8Step repl b rest).2)
termination_by l => l.length
decreasing_by
  simp_wf
  have := List.length_drop (utf8Step repl b rest).2 rest
  omega

/-- Python `os.path.splitext(filename)[1]` (POSIX): the extension of the final
path component, empty when the component has no dot or only leading dots. -/
def splitextExt (p : String) : String :=
  let bn := (p.data.reverse.takeWhile (fun c => c ≠ '/')).reverse
  let extRev := bn.reverse.takeWhile (fun c => c ≠ '.')
  if extRev.length = bn.length then ""
  else
    let ext := '.' :: extRev.reverse
    if (bn.take (bn.length - ext.length)).any (fun c => c ≠ '.') then
      String.mk ext
    else ""

/-- Python `str.lower()` (the app only ever lowercases ASCII extensions). -/
def pyLower (s : String) : String := String.mk (s.data.map Char.toLower)

/-- The plain-text / code / CSV extension whitelist. -/
def TEXT_EXTS : List String :=
  [".txt", ".cpp", ".java", ".py", ".md", ".xml", ".html", ".json", ".csv"]

/-- Python `str(cell)` for a spreadsheet cell value. -/
def pyStrOfCell : PyVal → String
  | .s v => v
  | .i v => toString v

/-- The Extractor `extract_text_from_file(file_storage)`: dispatch on the lowercased
extension; each reader's exception path degrades to a placeholder string.
(The `except` around the text decode is unreachable: decoding with
`errors="ignore"` never raises.) -/
def extract_text_from_file
    (docxRead : List Nat → Option (List String))
    (pdfRead : List Nat → Option (List (Option String)))
    (xlsxRead : List Nat → Option (List (List (Option PyVal))))
    (filename : String) (raw : List Nat) : String :=
  let ext := pyLower (splitextExt filename)
  if ext ∈ TEXT_EXTS then
    String.mk (utf8Decode [] raw)
  else if ext = ".docx" then
    match docxRead raw with
    | some paras => String.intercalate "\n" paras
    | none => "[Error reading DOCX file.]"
  else if ext = ".pdf" then
    match pdfRead raw with
    | some pages => String.intercalate "\n" (pages.map (fun t => t.getD ""))
    | none => "[Error reading PDF file.]"
  else if ext = ".xlsx" then
    match xlsxRead raw with
    | some rows =>
      String.intercalate "\n" (rows.map (fun row =>
        String.intercalate "\t" (row.map (fun c =>
          match c with
          | none => ""
          | some v => pyStrOfCell v))))
    | none => "[Error reading XLSX file.]"
  else
    "[Unsupported or unknown file type: " ++ ext ++ "]"

/-- C6: extraction is total (never raises); corrupted bytes under a
recognized binary extension yield that format's placeholder, and an
unrecognized extension yields a placeholder naming it. -/
theorem extract_degrades_never_raises
    (docxRead : List Nat → Option (List String))
    (pdfRead : List Nat → Option (List (Option String)))
    (xlsxRead : List Nat → Option (List (List (Option PyVal))))
    (filename : String) (raw : List Nat) :
    (pyLower (splitextExt filename) = ".docx" → docxRead raw = none →
      extract_text_from_file docxRead pdfRead xlsxRead filename raw =
        "[Error reading DOCX file.]") ∧
    (pyLower (splitextExt filename) = ".pdf" → pdfRead raw = none →
      extract_text_from_file docxRead pdfRead xlsxRead filename raw =
        "[Error reading PDF file.]") ∧
    (pyLower (splitextExt filename) = ".xlsx" → xlsxRead raw = none →
      extract_text_from_file docxRead pdfRead xlsxRead filename raw =
        "[Error reading XLSX file.]") ∧
    (pyLower (splitextExt filename) ∉ TEXT_EXTS →
     pyLower (splitextExt filename) ∉ [".docx", ".pdf", ".xlsx"] →
      extract_text_from_file docxRead pdfRead xlsxRead filename raw =
        "[Unsupported or unknown file type: " ++ pyLower (splitextExt filename) ++ "]") := by
  refine ⟨?_, ?_, ?_, ?_⟩
  · intro he hd
    simp [extract_text_from_file, he, hd, TEXT_EXTS]
  · intro he hd
    simp [extract_text_from_file, he, hd, TEXT_EXTS]
  · intro he hd
    simp [extract_text_from_file, he, hd, TEXT_EXTS]
  · intro h1 h2
    simp only [List.mem_cons, List.mem_singleton, not_or] at h2
    obtain ⟨hd, hp, hx, -⟩ := h2
    simp [extract_text_from_file, h1, hd, hp, hx]

/-- Witness for C6: corrupted `.DOCX` bytes (reader raises) and an
unsupported `.zip` name, both degrading to placeholders. -/
theorem extract_degrades_never_raises_witness :
    extract_text_from_file (fun _ => none) (fun _ => none) (fun _ => none)
        "Corrupt.DOCX" [0, 1, 2] = "[Error reading DOCX file.]" ∧
    extract_text_from_file (fun _ => none) (fun _ => none) (fun _ => none)
        "archive.zip" [0, 1, 2] = "[Unsupported or unknown file type: .zip]" :=
  ⟨(extract_degrades_never_raises (fun _ => none) (fun _ => none) (fun _ => none)
      "Corrupt.DOCX" [0, 1, 2]).1 (by decide) rfl,
   (extract_degrades_never_raises (fun _ => none) (fun _ => none) (fun _ => none)
      "archive.zip" [0, 1, 2]).2.2.2 (by decide) (by decide)⟩

/-- Modelled from the spec: permissive text decoding that replaces each
undecodable byte sequence with a visible marker (the standard replacement
character U+FFFD) — what C7 asserts the code does. -/
def decodeTextWithMarker (raw : List Nat) : String :=
  String.mk (utf8Decode [Char.ofNat 0xFFFD] raw)

/-- Counterexample to C7: on a `.txt` upload the code DROPS the
undecodable byte 0xFF (`errors="ignore"`), yielding "AB" with no visible
marker, which differs from the marker-inserting decode the claim describes. -/
theorem text_decode_no_marker_counterexample :
    extract_text_from_file (fun _ => none) (fun _ => none) (fun _ => none)
        "a.txt" [65, 255, 66] = "AB" ∧
    decodeTextWithMarker [65, 255, 66] = "A�B" ∧
    ("AB" : String) ≠ "A�B" := by
  refine ⟨?_, ?_, by decide⟩
  · show String.mk (utf8Decode [] [65, 255, 66]) = "AB"
    simp [utf8Decode, utf8Step, isUtf8Cont]
  · show String.mk (utf8Decode [Char.ofNat 0xFFFD] [65, 255, 66]) = "A�B"
    simp [utf8Decode, utf8Step, isUtf8Cont]

/-- ASCII bytes decode to themselves (under any error handler). -/
theorem utf8Decode_ascii_append (repl : List Char) (pre l : List Nat)
    (hpre : ∀ x ∈ pre, x < 128) :
    utf8Decode repl (pre ++ l) = pre.map Char.ofNat ++ utf8Decode repl l := by
  induction pre with
  | nil => simp
  | cons b pre ih =>
    have hb : b < 128 := hpre b (by simp)
    rw [List.cons_append, utf8Decode]
    simp only [utf8Step, if_pos hb]
    simpa using ih (fun x hx => hpre x (by simp [hx]))

/-- Amended C7: text extensions are decoded permissively and never abort,
but each undecodable byte is silently dropped (`errors="ignore"`), not
replaced with a visible marker: an invalid byte between two ASCII runs
simply disappears from the result. -/
theorem text_decode_permissive_drops (pre post : List Nat) (b : Nat)
    (hpre : ∀ x ∈ pre, x < 128) (hpost : ∀ x ∈ post, x < 128) (hb : 245 ≤ b) :
    extract_text_from_file (fun _ => none) (fun _ => none) (fun _ => none)
        "a.txt" (pre ++ b :: post) =
      String.mk (pre.map Char.ofNat ++ post.map Char.ofNat) := by
  have hext : extract_text_from_file (fun _ => none) (fun _ => none) (fun _ => none)
      "a.txt" (pre ++ b :: post) = String.mk (utf8Decode [] (pre ++ b :: post)) := by
    simp [extract_text_from_file, splitextExt, pyLower, TEXT_EXTS]
  rw [hext, utf8Decode_ascii_append [] pre (b :: post) hpre]
  have hstep : utf8Step [] b post = ([], 0) := by
    have h1 : ¬ b < 128 := by omega
    have h2 : ¬ (194 ≤ b ∧ b ≤ 223) := by omega
    have h3 : ¬ (224 ≤ b ∧ b ≤ 239) := by omega
    have h4 : ¬ (240 ≤ b ∧ b ≤ 244) := by omega
    simp [utf8Step, h1, h2, h3, h4]
  have hp2 : utf8Decode [] post = post.map Char.ofNat := by
    simpa [utf8Decode] using utf8Decode_ascii_append [] post [] hpost
  rw [utf8Decode, hstep]
  simp [hp2]

/-- Witness for the amended C7 theorem at concrete bytes. -/
theorem text_decode_permissive_drops_witness :
    extract_text_from_file (fun _ => none) (fun _ => none) (fun _ => none)
        "a.txt" ([72, 105] ++ 255 :: [33]) = "Hi!" :=
  text_decode_permissive_drops [72, 105] [33] 255
    (by decide) (by decide) (by decide)

/-! ### Output sanitisation (`grade`, lines 479-483)

`raw.replace("**", "").replace("---", "")`, then
`re.sub(r"^[*\-\+]+\s*", "", ..., flags=MULTILINE)`, then `.strip()`.
The two `str.replace` calls have fixed patterns and empty replacement and
are embedded as dedicated scanners over the character list (leftmost,
non-overlapping, resuming after each removed occurrence, exactly as
`str.replace`). -/

/-- Python `text.replace("**", "")`. -/
def removeStarStar : List Char → List Char
  | [] => []
  | '*' :: '*' :: cs => removeStarStar cs
  | c :: cs => c :: removeStarStar cs

/-- Python `text.replace("---", "")`. -/
def removeTripleDash : List Char → List Char
  | [] => []
  | '-' :: '-' :: '-' :: cs => removeTripleDash cs
  | c :: cs => c :: removeTripleDash cs

/-- The whitespace class of Python's `str.strip()` and of `\s` in a
`re` pattern over `str` (Unicode whitespace). -/
def isPySpace (c : Char) : Bool :=
  c.toNat == 32 || c.toNat == 9 || c.toNat == 10 || c.toNat == 11 ||
  c.toNat == 12 || c.toNat == 13 || c.toNat == 28 || c.toNat == 29 ||
  c.toNat == 30 || c.toNat == 31 || c.toNat == 133 || c.toNat == 160 ||
  c.toNat == 5760 || c.toNat == 8192 || c.toNat == 8193 || c.toNat == 8194 ||
  c.toNat == 8195 || c.toNat == 8196 || c.toNat == 8197 || c.toNat == 8198 ||
  c.toNat == 8199 || c.toNat == 8200 || c.toNat == 8201 || c.toNat == 8202 ||
  c.toNat == 8232 || c.toNat == 8233 || c.toNat == 8239 || c.toNat == 8287 ||
  c.toNat == 12288

/-- Python `str.strip()`: drop whitespace from both ends. -/
def pyStrip (s : String) : String :=
  String.mk (((s.data.dropWhile isPySpace).reverse.dropWhile isPySpace).reverse)

/-- A bullet character of the class `[*\-\+]`. -/
def isBulletChar (c : Char) : Bool := c == '*' || c == '-' || c == '+'

/-- Scanner state for `re.sub(r"^[*\-\+]+\s*", "", text, flags=MULTILINE)`:
in plain text (tracking whether the position is a line start, i.e. `^`
matches there), inside the `[*\-\+]+` run of a match, or inside the `\s*`
run of a match (tracking whether the previous consumed character was a
newline, since `\s` matches newlines and a new line start may follow). -/
inductive ScanMode
  | norm (atStart : Bool)
  | bullets
  | spaces (atStart : Bool)

/-- One left-to-right pass implementing the `re.sub`: at each line start a
maximal run of bullets, then a maximal run of whitespace, is deleted
(matches are non-overlapping; scanning resumes after each match). -/
def subBulletsAux : ScanMode → List Char → List Char
  | _, [] => []
  | .norm true, c :: cs =>
    if isBulletChar c then subBulletsAux .bullets cs
    else c :: subBulletsAux (.norm (c == Char.ofNat 10)) cs
  | .norm false, c :: cs => c :: subBulletsAux (.norm (c == Char.ofNat 10)) cs
  | .bullets, c :: cs =>
    if isBulletChar c then subBulletsAux .bullets cs
    else if isPySpace c then subBulletsAux (.spaces (c == Char.ofNat 10)) cs
    else c :: subBulletsAux (.norm (c == Char.ofNat 10)) cs
  | .spaces a, c :: cs =>
    if isPySpace c then subBulletsAux (.spaces (c == Char.ofNat 10)) cs
    else if a && isBulletChar c then subBulletsAux .bullets cs
    else c :: subBulletsAux (.norm (c == Char.ofNat 10)) cs

/-- The `re.sub` over a whole string (`^` matches at position 0). -/
def pySubBullets (s : String) : String :=
  String.mk (subBulletsAux (.norm true) s.data)

/-- The defensive cleanup applied to the raw model output in `grade`:
strip `**` and `---`, strip leading bullet runs at line starts, then
trim. -/
def sanitizeResult (raw : String) : String :=
  pyStrip (pySubBullets (String.mk (removeTripleDash (removeStarStar raw.data))))

/-- If the bold-stripped text starts with a star, so did the input. -/
theorem rss_head (l : List Char) :
    (removeStarStar l).head? = some '*' → l.head? = some '*' := by
  induction l using removeStarStar.induct with
  | case1 => simp [removeStarStar]
  | case2 cs ih => intro h; rfl
  | case3 c cs hne ih =>
    rw [removeStarStar.eq_3 c cs hne]
    intro h
    simp only [List.head?_cons, Option.some.injEq] at h ⊢
    exact h

/-- The pass `replace("**", "")` leaves no `**` occurrence behind. -/
theorem rss_no_bold (l : List Char) :
    ¬ ('*' :: '*' :: []) <:+: removeStarStar l := by
  induction l using removeStarStar.induct with
  | case1 => simp [removeStarStar]
  | case2 cs ih => rw [removeStarStar.eq_2]; exact ih
  | case3 c cs hne ih =>
    rw [removeStarStar.eq_3 c cs hne]
    intro hinf
    rcases List.infix_cons_iff.mp hinf with hpre | htail
    · obtain ⟨t, ht⟩ := hpre
      rw [List.cons_append, List.cons_append, List.nil_append] at ht
      obtain ⟨hc, ht2⟩ := List.cons.inj ht
      have hh : (removeStarStar cs).head? = some '*' := by rw [← ht2]; rfl
      have := rss_head cs hh
      cases cs with
      | nil => simp at this
      | cons d cs2 =>
        simp only [List.head?_cons, Option.some.injEq] at this
        exact hne cs2 hc.symm (by rw [this])
    · exact ih htail

/-- If the rule-stripped text starts with a dash, so did the input. -/
theorem rtd_head (l : List Char) :
    (removeTripleDash l).head? = some '-' → l.head? = some '-' := by
  induction l using removeTripleDash.induct with
  | case1 => simp [removeTripleDash]
  | case2 cs ih => intro h; rfl
  | case3 c cs hne ih =>
    rw [removeTripleDash.eq_3 c cs hne]
    intro h
    simp only [List.head?_cons, Option.some.injEq] at h ⊢
    exact h

/-- If the rule-stripped text starts with two dashes, so did the input. -/
theorem rtd_head2 (l : List Char) :
    ('-' :: '-' :: []) <+: removeTripleDash l → ('-' :: '-' :: []) <+: l := by
  induction l using removeTripleDash.induct with
  | case1 => simp [removeTripleDash]
  | case2 cs ih =>
    intro h
    exact ⟨'-' :: cs, rfl⟩
  | case3 c cs hne ih =>
    rw [removeTripleDash.eq_3 c cs hne]
    intro h
    obtain ⟨t, ht⟩ := h
    rw [List.cons_append, List.cons_append, List.nil_append] at ht
    obtain ⟨hc, ht2⟩ := List.cons.inj ht
    have hh : (removeTripleDash cs).head? = some '-' := by rw [← ht2]; rfl
    have h2 := rtd_head cs hh
    cases cs with
    | nil => simp at h2
    | cons d cs2 =>
      simp only [List.head?_cons, Option.some.injEq] at h2
      exact ⟨cs2, by rw [← hc, h2]; rfl⟩

/-- The pass `replace("---", "")` leaves no `---` occurrence behind. -/
theorem rtd_no_rule (l : List Char) :
    ¬ ('-' :: '-' :: '-' :: []) <:+: removeTripleDash l := by
  induction l using removeTripleDash.induct with
  | case1 => simp [removeTripleDash]
  | case2 cs ih => rw [removeTripleDash.eq_2]; exact ih
  | case3 c cs hne ih =>
    rw [removeTripleDash.eq_3 c cs hne]
    intro hinf
    rcases List.infix_cons_iff.mp hinf with hpre | htail
    · obtain ⟨t, ht⟩ := hpre
      rw [List.cons_append, List.cons_append, List.cons_append, List.nil_append] at ht
      obtain ⟨hc, ht2⟩ := List.cons.inj ht
      have hp2 : ('-' :: '-' :: []) <+: removeTripleDash cs := by
        rw [← ht2]
        exact ⟨t, by simp⟩
      obtain ⟨u, hu⟩ := rtd_head2 cs hp2
      cases cs with
      | nil => simp at hu
      | cons d cs2 =>
        rw [List.cons_append, List.cons_append, List.nil_append] at hu
        obtain ⟨hd, hu2⟩ := List.cons.inj hu
        exact hne u hc.symm (by rw [← hd, ← hu2])
    · exact ih htail

/-- The first survivor of `dropWhile p` fails `p`. -/
theorem dropWhile_head_false (p : Char → Bool) (l : List Char) :
    ∀ c, (l.dropWhile p).head? = some c → p c = false := by
  induction l with
  | nil => intro c h; simp at h
  | cons a t ih =>
    intro c h
    by_cases hp : p a
    · exact ih c (by simpa [List.dropWhile_cons, hp] using h)
    · rw [List.dropWhile_cons, if_neg hp] at h
      simp only [List.head?_cons, Option.some.injEq] at h
      subst h
      simpa using hp

/-- Dropping a prefix with `dropWhile` does not touch the last element (when anything survives). -/
theorem dropWhile_getLast_eq (p : Char → Bool) (l : List Char)
    (h : l.dropWhile p ≠ []) : (l.dropWhile p).getLast? = l.getLast? := by
  induction l with
  | nil => simp at h
  | cons a t ih =>
    by_cases hp : p a
    · rw [List.dropWhile_cons, if_pos hp] at h ⊢
      rw [ih h]
      have ht : t ≠ [] := by
        rintro rfl
        simp [List.dropWhile] at h
      cases t with
      | nil => exact absurd rfl ht
      | cons b u => rw [List.getLast?_cons_cons]
    · rw [List.dropWhile_cons, if_neg hp]

/-- No whitespace at either end. -/
def strippedEnds (l : List Char) : Prop :=
  (∀ c, l.head? = some c → isPySpace c = false) ∧
  (∀ c, l.getLast? = some c → isPySpace c = false)

/-- Python `str.strip()` output carries no whitespace at either end. -/
theorem pyStrip_strippedEnds (s : String) : strippedEnds (pyStrip s).data := by
  unfold pyStrip strippedEnds
  constructor
  · intro c hc
    rw [show (String.mk (((s.data.dropWhile isPySpace).reverse.dropWhile
        isPySpace).reverse)).data =
        ((s.data.dropWhile isPySpace).reverse.dropWhile isPySpace).reverse from rfl,
      List.head?_reverse] at hc
    have hbne : (s.data.dropWhile isPySpace).reverse.dropWhile isPySpace ≠ [] := by
      rintro hbe
      rw [hbe] at hc
      simp at hc
    rw [dropWhile_getLast_eq _ _ hbne, List.getLast?_reverse] at hc
    exact dropWhile_head_false _ _ c hc
  · intro c hc
    rw [show (String.mk (((s.data.dropWhile isPySpace).reverse.dropWhile
        isPySpace).reverse)).data =
        ((s.data.dropWhile isPySpace).reverse.dropWhile isPySpace).reverse from rfl,
      List.getLast?_reverse] at hc
    exact dropWhile_head_false _ _ c hc

/-- The sanitized grading report carries no whitespace at either end. -/
theorem sanitize_trimmed (raw : String) : strippedEnds (sanitizeResult raw).data :=
  pyStrip_strippedEnds _

/-- Whitespace characters are not bullet characters. -/
theorem space_not_bullet (x : Char) (h : isPySpace x = true) :
    isBulletChar x = false := by
  by_contra hb
  have hb2 : isBulletChar x = true := by simpa using hb
  have h3 : (x = '*' ∨ x = '-') ∨ x = '+' := by
    simpa [isBulletChar, Bool.or_eq_true, beq_iff_eq] using hb2
  rcases h3 with (rfl | rfl) | rfl <;> exact absurd h (by decide)

/-- Leaving the `\s*` run of a match: the first non-space character is
emitted and scanning resumes (no new match can start on it unless it is a
bullet at a line start, which the hypotheses exclude). -/
theorem subBullets_spaces_exit (c : Char) (rest : List Char)
    (hc1 : isBulletChar c = false) (hc2 : isPySpace c = false) :
    ∀ sp, (∀ x ∈ sp, isPySpace x = true) → ∀ a,
      subBulletsAux (.spaces a) (sp ++ c :: rest) =
        c :: subBulletsAux (.norm (c == Char.ofNat 10)) rest := by
  intro sp
  induction sp with
  | nil =>
    intro h a
    rw [List.nil_append, subBulletsAux.eq_def]
    simp [hc1, hc2]
  | cons x sp ih =>
    intro h a
    rw [List.cons_append, subBulletsAux.eq_def]
    simp only [h x (List.mem_cons_self x sp), if_true, if_pos]
    exact ih (fun y hy => h y (List.mem_cons_of_mem x hy)) _

/-- Inside the `[*\-\+]+` run: bullets are consumed, then whitespace,
then the first ordinary character is emitted. -/
theorem subBullets_bullets_run (c : Char) (rest sp : List Char)
    (hsp : ∀ x ∈ sp, isPySpace x = true)
    (hc1 : isBulletChar c = false) (hc2 : isPySpace c = false) :
    ∀ bs, (∀ x ∈ bs, isBulletChar x = true) →
      subBulletsAux .bullets (bs ++ (sp ++ c :: rest)) =
        c :: subBulletsAux (.norm (c == Char.ofNat 10)) rest := by
  intro bs
  induction bs with
  | nil =>
    intro _
    rw [List.nil_append]
    cases sp with
    | nil =>
      rw [List.nil_append, subBulletsAux.eq_def]
      simp [hc1, hc2]
    | cons x sp2 =>
      have hx := hsp x (List.mem_cons_self x sp2)
      rw [List.cons_append, subBulletsAux.eq_def]
      simp only [space_not_bullet x hx, hx, if_false, if_true, Bool.false_eq_true]
      exact subBullets_spaces_exit c rest hc1 hc2 sp2
        (fun y hy => hsp y (List.mem_cons_of_mem x hy)) _
  | cons b bs ih =>
    intro hb
    rw [List.cons_append, subBulletsAux.eq_def]
    simp only [hb b (List.mem_cons_self b bs), if_true, if_pos]
    exact ih fun y hy => hb y (List.mem_cons_of_mem b hy)

/-- At a line start, a nonempty bullet run and its trailing whitespace are
deleted and the rest of the line survives. -/
theorem subBullets_line_strip (bs sp rest : List Char) (c : Char)
    (hbs : bs ≠ []) (hb : ∀ x ∈ bs, isBulletChar x = true)
    (hsp : ∀ x ∈ sp, isPySpace x = true)
    (hc1 : isBulletChar c = false) (hc2 : isPySpace c = false) :
    subBulletsAux (.norm true) (bs ++ (sp ++ c :: rest)) =
      c :: subBulletsAux (.norm (c == Char.ofNat 10)) rest := by
  cases bs with
  | nil => exact absurd rfl hbs
  | cons b bs2 =>
    rw [List.cons_append, subBulletsAux.eq_def]
    simp only [hb b (List.mem_cons_self b bs2), if_true, if_pos]
    exact subBullets_bullets_run c rest sp hsp hc1 hc2 bs2
      (fun y hy => hb y (List.mem_cons_of_mem b hy))

/-- C8: the sanitizer removes every `**` bold marker (the bold-strip pass
leaves no occurrence), removes every `---` rule marker (the rule-strip
pass leaves no occurrence), strips leading bullet runs with their
trailing whitespace at each line start, trims the ends of the result, and
maps the claim's example to `bold` / no rule / `item`. -/
theorem sanitize_removes_markup_and_trims :
    (∀ raw : List Char, ¬ ('*' :: '*' :: []) <:+: removeStarStar raw) ∧
    (∀ raw : List Char, ¬ ('-' :: '-' :: '-' :: []) <:+: removeTripleDash raw) ∧
    (∀ raw : String, strippedEnds (sanitizeResult raw).data) ∧
    (∀ bs sp rest : List Char, ∀ c : Char, bs ≠ [] →
      (∀ x ∈ bs, isBulletChar x = true) → (∀ x ∈ sp, isPySpace x = true) →
      isBulletChar c = false → isPySpace c = false →
      subBulletsAux (.norm true) (bs ++ (sp ++ c :: rest)) =
        c :: subBulletsAux (.norm (c == Char.ofNat 10)) rest) ∧
    sanitizeResult "**bold**\n---\n- item" = "bold\n\nitem" :=
  ⟨rss_no_bold, rtd_no_rule, sanitize_trimmed,
   fun bs sp rest c h1 h2 h3 h4 h5 => subBullets_line_strip bs sp rest c h1 h2 h3 h4 h5,
   by decide⟩

/-- Witness for C8: the line-start stripping conjunct applied to the
claim's `- item` line. -/
theorem sanitize_removes_markup_and_trims_witness :
    subBulletsAux (.norm true) (['-'] ++ ([' '] ++ 'i' :: "tem".data)) =
      'i' :: subBulletsAux (.norm ('i' == Char.ofNat 10)) "tem".data :=
  sanitize_removes_markup_and_trims.2.2.2.1 ['-'] [' '] "tem".data 'i'
    (by decide) (by decide) (by decide) (by decide) (by decide)

/-! ### Template engine (`build_full_prompt`, lines 204-217)

`str.format` is embedded as `pyFmt`, a scanner over the template with the
keyword arguments abstracted as a lookup `get` (the app passes exactly
`rubric=` and `student=`).  `\x7b\x7b` / `\x7d\x7d` in the TEMPLATE are
unescaped to single braces; a replacement field's value is substituted
verbatim (Python does not re-scan or unescape substituted values); a
stray single brace or an unknown field name is a `ValueError` / `KeyError`
(error messages are abbreviated, without Python's quoting).  Auto-numbered
positional fields and `!`/`:` specs are not used by the app and are not
modelled. -/

def lbrace : Char := Char.ofNat 123

def rbrace : Char := Char.ofNat 125

/-- Python `str.replace(pat, rep)` with the nonempty pattern split as
`p0 :: ptl`: leftmost non-overlapping occurrences are replaced. -/
def pyReplace (p0 : Char) (ptl : List Char) (rep : List Char) : List Char → List Char
  | [] => []
  | c :: cs =>
    if c = p0 ∧ ptl.isPrefixOf cs then rep ++ pyReplace p0 ptl rep (cs.drop ptl.length)
    else c :: pyReplace p0 ptl rep cs
termination_by l => l.length
decreasing_by
  all_goals simp_wf
  all_goals omega

/-- The helper `_escape` from `build_full_prompt`:
`text.replace("\x7b", "\x7b\x7b").replace("\x7d", "\x7d\x7d")`. -/
def pyEscapeBraces (s : String) : String :=
  String.mk (pyReplace rbrace [] [rbrace, rbrace]
    (pyReplace lbrace [] [lbrace, lbrace] s.data))

/-- Scanner mode for the `str.format` embedding: literal text, just seen
a lone `\x7d`, just seen a lone `\x7b`, or inside a replacement-field name
(accumulated reversed). -/
inductive FmtMode
  | norm
  | afterL
  | afterR
  | inField (acc : List Char)

/-- The `str.format` scanner (named replacement fields only; the app's
templates use no auto-numbered `\x7b\x7d` fields and no `!`/`:` specs). -/
def pyFmt (get : String → Option String) : FmtMode → List Char → Except String (List Char)
  | .norm, [] => .ok []
  | .norm, c :: rest =>
    if c = rbrace then pyFmt get .afterR rest
    else if c = lbrace then pyFmt get .afterL rest
    else (fun t => c :: t) <$> pyFmt get .norm rest
  | .afterR, [] => .error "ValueError: Single \x7d encountered in format string"
  | .afterR, d :: rest2 =>
    if d = rbrace then (fun t => rbrace :: t) <$> pyFmt get .norm rest2
    else .error "ValueError: Single \x7d encountered in format string"
  | .afterL, [] => .error "ValueError: Single \x7b encountered in format string"
  | .afterL, d :: rest2 =>
    if d = lbrace then (fun t => lbrace :: t) <$> pyFmt get .norm rest2
    else if d = rbrace then
      match get "" with
      | some v => (fun t => v.data ++ t) <$> pyFmt get .norm rest2
      | none => .error ("KeyError: " ++ "")
    else pyFmt get (.inField [d]) rest2
  | .inField _, [] => .error "ValueError: expected \x7d before end of string"
  | .inField acc, c :: rest =>
    if c = rbrace then
      match get (String.mk acc.reverse) with
      | some v => (fun t => v.data ++ t) <$> pyFmt get .norm rest
      | none => .error ("KeyError: " ++ String.mk acc.reverse)
    else pyFmt get (.inField (c :: acc)) rest

/-- The Template Engine `build_full_prompt(prompt_template, rubric_text, student_text)`:
brace-escape the two content strings, then `prompt_template.format(...)`.
`.error` models an uncaught exception escaping `str.format`. -/
def build_full_prompt (prompt_template rubric_text student_text : String) :
    Except String String :=
  (pyFmt (fun n =>
      if n = "rubric" then some (pyEscapeBraces rubric_text)
      else if n = "student" then some (pyEscapeBraces student_text)
      else none)
    .norm prompt_template.data).map String.mk

def promptPre : String :=
  "You are an AI assistant that grades student work against a rubric for a human teacher.\n\nYou will always be given:\nRUBRIC:\n"

def promptMid : String :=
  "\n\nSTUDENT SUBMISSION:\n"

def promptPost : String :=
  "\n\nYour job is to carefully read the ENTIRE student submission and grade it ONLY using the rubric. Always look for:\n- What the work actually does or says (semantic understanding).\n- Whether specific requirements, constraints, or features in the rubric are present (rule checking).\n\nGENERAL GRADING PRINCIPLES:\n- Obey the rubric exactly. If it defines point values, levels (e.g., Exemplary / Proficient / Developing), or specific requirements, follow them.\n- If the rubric is vague, make a reasonable assumption and explain it briefly in the justification.\n- Never award full credit when clear rubric requirements are missing.\n- Partial credit is allowed when some, but not all, expectations for a criterion are met.\n- If something is completely missing, award 0 points for that criterion.\n\nTREAT DIFFERENT TYPES OF WORK CAREFULLY:\n- For CODE (C++, Java, Python, etc.), consider:\n  - Does it compile or look syntactically valid?\n  - Does it logically implement the required behavior?\n  - Are required methods, classes, variables, and control structures present?\n  - Are naming and style conventions followed if the rubric mentions them?\n- For ESSAYS or WRITING, consider:\n  - Does it answer the prompt?\n  - Does it follow structure and length requirements?\n  - Does it include required evidence, explanation, or formatting specified in the rubric?\n\nOUTPUT FORMAT (PLAIN TEXT ONLY):\nReturn plain text with NO Markdown and NO bullets.\n\nFor each rubric criterion or row, output in this exact pattern:\n\nCriterion: <short name or description of the rubric criterion>\nScore: <earned_points>/<max_points>\nEvidence: <1\u20133 clear sentences citing specific features of the student work, or explaining what is missing>\n\nLeave exactly one blank line between criteria.\n\nAFTER ALL CRITERIA, add a final section:\n\nTotal Score: <sum_earned_points>/<sum_max_points>\n\nTeacher Comment Summary:\n<2\u20134 complete sentences that a teacher can paste into Canvas or Google Classroom. Mention strengths first, then specific areas to improve, and, if helpful, a next step or suggestion for the student.>\n\nFORMATTING RULES (VERY IMPORTANT):\n- Do NOT use ** or any other Markdown.\n- Do NOT use bullets like *, -, +.\n- Do NOT use numbered lists like 1), 2), etc.\n- Do NOT include code fences or backticks.\n- Use only normal sentences and line breaks.\n\nIf the rubric does not clearly state total points, make a reasonable interpretation, explain it briefly in the first Evidence line of the first criterion, and still follow the same output structure."

def DEFAULT_PROMPT_TEMPLATE : String :=
  "You are an AI assistant that grades student work against a rubric for a human teacher.\n\nYou will always be given:\nRUBRIC:\n\x7brubric\x7d\n\nSTUDENT SUBMISSION:\n\x7bstudent\x7d\n\nYour job is to carefully read the ENTIRE student submission and grade it ONLY using the rubric. Always look for:\n- What the work actually does or says (semantic understanding).\n- Whether specific requirements, constraints, or features in the rubric are present (rule checking).\n\nGENERAL GRADING PRINCIPLES:\n- Obey the rubric exactly. If it defines point values, levels (e.g., Exemplary / Proficient / Developing), or specific requirements, follow them.\n- If the rubric is vague, make a reasonable assumption and explain it briefly in the justification.\n- Never award full credit when clear rubric requirements are missing.\n- Partial credit is allowed when some, but not all, expectations for a criterion are met.\n- If something is completely missing, award 0 points for that criterion.\n\nTREAT DIFFERENT TYPES OF WORK CAREFULLY:\n- For CODE (C++, Java, Python, etc.), consider:\n  - Does it compile or look syntactically valid?\n  - Does it logically implement the required behavior?\n  - Are required methods, classes, variables, and control structures present?\n  - Are naming and style conventions followed if the rubric mentions them?\n- For ESSAYS or WRITING, consider:\n  - Does it answer the prompt?\n  - Does it follow structure and length requirements?\n  - Does it include required evidence, explanation, or formatting specified in the rubric?\n\nOUTPUT FORMAT (PLAIN TEXT ONLY):\nReturn plain text with NO Markdown and NO bullets.\n\nFor each rubric criterion or row, output in this exact pattern:\n\nCriterion: <short name or description of the rubric criterion>\nScore: <earned_points>/<max_points>\nEvidence: <1\u20133 clear sentences citing specific features of the student work, or explaining what is missing>\n\nLeave exactly one blank line between criteria.\n\nAFTER ALL CRITERIA, add a final section:\n\nTotal Score: <sum_earned_points>/<sum_max_points>\n\nTeacher Comment Summary:\n<2\u20134 complete sentences that a teacher can paste into Canvas or Google Classroom. Mention strengths first, then specific areas to improve, and, if helpful, a next step or suggestion for the student.>\n\nFORMATTING RULES (VERY IMPORTANT):\n- Do NOT use ** or any other Markdown.\n- Do NOT use bullets like *, -, +.\n- Do NOT use numbered lists like 1), 2), etc.\n- Do NOT include code fences or backticks.\n- Use only normal sentences and line breaks.\n\nIf the rubric does not clearly state total points, make a reasonable interpretation, explain it briefly in the first Evidence line of the first criterion, and still follow the same output structure."

/-- The default template is its three literal chunks around the two
replacement fields. -/
theorem default_template_split :
    DEFAULT_PROMPT_TEMPLATE =
      promptPre ++ "\x7brubric\x7d" ++ promptMid ++ "\x7bstudent\x7d" ++ promptPost := by
  rfl

/-- Brace-free literal text passes through the format scanner. -/
theorem pyFmt_lit_ok (get : String → Option String) (lit rest out : List Char)
    (h : ∀ c ∈ lit, c ≠ lbrace ∧ c ≠ rbrace)
    (hr : pyFmt get .norm rest = .ok out) :
    pyFmt get .norm (lit ++ rest) = .ok (lit ++ out) := by
  induction lit with
  | nil => simpa using hr
  | cons c cs ih =>
    obtain ⟨hcl, hcr⟩ := h c (List.mem_cons_self c cs)
    have ih2 := ih fun x hx => h x (List.mem_cons_of_mem c hx)
    rw [List.cons_append, pyFmt]
    simp [hcl, hcr, ih2]

/-- Inside a field name, non-brace characters accumulate until the
closing brace triggers the (verbatim) substitution of the bound value. -/
theorem pyFmt_acc_ok (get : String → Option String) (nm : List Char)
    (acc rest out : List Char) (v : String)
    (hnm : ∀ c ∈ nm, c ≠ rbrace)
    (hget : get (String.mk (acc.reverse ++ nm)) = some v)
    (hr : pyFmt get .norm rest = .ok out) :
    pyFmt get (.inField acc) (nm ++ rbrace :: rest) = .ok (v.data ++ out) := by
  induction nm generalizing acc with
  | nil =>
    rw [List.nil_append, pyFmt]
    simp only [List.append_nil] at hget
    simp [hget, hr]
  | cons c cs ih =>
    have hcr := hnm c (List.mem_cons_self c cs)
    rw [List.cons_append, pyFmt]
    simp only [if_neg hcr]
    exact ih (c :: acc) (fun x hx => hnm x (List.mem_cons_of_mem c hx))
      (by simpa using hget)

/-- A replacement field `\x7bname\x7d` with a bound name substitutes the
value verbatim. -/
theorem pyFmt_field_ok (get : String → Option String) (n0 : Char)
    (ntl rest out : List Char) (v : String)
    (h0l : n0 ≠ lbrace) (h0r : n0 ≠ rbrace)
    (htl : ∀ c ∈ ntl, c ≠ rbrace)
    (hget : get (String.mk (n0 :: ntl)) = some v)
    (hr : pyFmt get .norm rest = .ok out) :
    pyFmt get .norm (lbrace :: n0 :: ntl ++ rbrace :: rest) = .ok (v.data ++ out) := by
  have hstep : pyFmt get .norm (lbrace :: n0 :: ntl ++ rbrace :: rest) =
      pyFmt get (.inField [n0]) (ntl ++ rbrace :: rest) := by
    rw [List.cons_append, pyFmt.eq_def]
    simp only [show (lbrace = rbrace) = False from by simp [lbrace, rbrace],
      if_false, if_true]
    rw [pyFmt.eq_def]
    simp [h0l, h0r]
  rw [hstep]
  exact pyFmt_acc_ok get ntl [n0] rest out v htl (by simpa using hget) hr

/-- Tail of `promptPost` from character 100. -/
def postTail1 : String :=
  "ways look for:\n- What the work actually does or says (semantic understanding).\n- Whether specific requirements, constraints, or features in the rubric are present (rule checking).\n\nGENERAL GRADING PRINCIPLES:\n- Obey the rubric exactly. If it defines point values, levels (e.g., Exemplary / Proficient / Developing), or specific requirements, follow them.\n- If the rubric is vague, make a reasonable assumption and explain it briefly in the justification.\n- Never award full credit when clear rubric requirements are missing.\n- Partial credit is allowed when some, but not all, expectations for a criterion are met.\n- If something is completely missing, award 0 points for that criterion.\n\nTREAT DIFFERENT TYPES OF WORK CAREFULLY:\n- For CODE (C++, Java, Python, etc.), consider:\n  - Does it compile or look syntactically valid?\n  - Does it logically implement the required behavior?\n  - Are required methods, classes, variables, and control structures present?\n  - Are naming and style conventions followed if the rubric mentions them?\n- For ESSAYS or WRITING, consider:\n  - Does it answer the prompt?\n  - Does it follow structure and length requirements?\n  - Does it include required evidence, explanation, or formatting specified in the rubric?\n\nOUTPUT FORMAT (PLAIN TEXT ONLY):\nReturn plain text with NO Markdown and NO bullets.\n\nFor each rubric criterion or row, output in this exact pattern:\n\nCriterion: <short name or description of the rubric criterion>\nScore: <earned_points>/<max_points>\nEvidence: <1\u20133 clear sentences citing specific features of the student work, or explaining what is missing>\n\nLeave exactly one blank line between criteria.\n\nAFTER ALL CRITERIA, add a final section:\n\nTotal Score: <sum_earned_points>/<sum_max_points>\n\nTeacher Comment Summary:\n<2\u20134 complete sentences that a teacher can paste into Canvas or Google Classroom. Mention strengths first, then specific areas to improve, and, if helpful, a next step or suggestion for the student.>\n\nFORMATTING RULES (VERY IMPORTANT):\n- Do NOT use ** or any other Markdown.\n- Do NOT use bullets like *, -, +.\n- Do NOT use numbered lists like 1), 2), etc.\n- Do NOT include code fences or backticks.\n- Use only normal sentences and line breaks.\n\nIf the rubric does not clearly state total points, make a reasonable interpretation, explain it briefly in the first Evidence line of the first criterion, and still follow the same output structure."

/-- Tail of `promptPost` from character 200. -/
def postTail2 : String :=
  "quirements, constraints, or features in the rubric are present (rule checking).\n\nGENERAL GRADING PRINCIPLES:\n- Obey the rubric exactly. If it defines point values, levels (e.g., Exemplary / Proficient / Developing), or specific requirements, follow them.\n- If the rubric is vague, make a reasonable assumption and explain it briefly in the justification.\n- Never award full credit when clear rubric requirements are missing.\n- Partial credit is allowed when some, but not all, expectations for a criterion are met.\n- If something is completely missing, award 0 points for that criterion.\n\nTREAT DIFFERENT TYPES OF WORK CAREFULLY:\n- For CODE (C++, Java, Python, etc.), consider:\n  - Does it compile or look syntactically valid?\n  - Does it logically implement the required behavior?\n  - Are required methods, classes, variables, and control structures present?\n  - Are naming and style conventions followed if the rubric mentions them?\n- For ESSAYS or WRITING, consider:\n  - Does it answer the prompt?\n  - Does it follow structure and length requirements?\n  - Does it include required evidence, explanation, or formatting specified in the rubric?\n\nOUTPUT FORMAT (PLAIN TEXT ONLY):\nReturn plain text with NO Markdown and NO bullets.\n\nFor each rubric criterion or row, output in this exact pattern:\n\nCriterion: <short name or description of the rubric criterion>\nScore: <earned_points>/<max_points>\nEvidence: <1\u20133 clear sentences citing specific features of the student work, or explaining what is missing>\n\nLeave exactly one blank line between criteria.\n\nAFTER ALL CRITERIA, add a final section:\n\nTotal Score: <sum_earned_points>/<sum_max_points>\n\nTeacher Comment Summary:\n<2\u20134 complete sentences that a teacher can paste into Canvas or Google Classroom. Mention strengths first, then specific areas to improve, and, if helpful, a next step or suggestion for the student.>\n\nFORMATTING RULES (VERY IMPORTANT):\n- Do NOT use ** or any other Markdown.\n- Do NOT use bullets like *, -, +.\n- Do NOT use numbered lists like 1), 2), etc.\n- Do NOT include code fences or backticks.\n- Use only normal sentences and line breaks.\n\nIf the rubric does not clearly state total points, make a reasonable interpretation, explain it briefly in the first Evidence line of the first criterion, and still follow the same output structure."

/-- Tail of `promptPost` from character 300. -/
def postTail3 : String :=
  "NCIPLES:\n- Obey the rubric exactly. If it defines point values, levels (e.g., Exemplary / Proficient / Developing), or specific requirements, follow them.\n- If the rubric is vague, make a reasonable assumption and explain it briefly in the justification.\n- Never award full credit when clear rubric requirements are missing.\n- Partial credit is allowed when some, but not all, expectations for a criterion are met.\n- If something is completely missing, award 0 points for that criterion.\n\nTREAT DIFFERENT TYPES OF WORK CAREFULLY:\n- For CODE (C++, Java, Python, etc.), consider:\n  - Does it compile or look syntactically valid?\n  - Does it logically implement the required behavior?\n  - Are required methods, classes, variables, and control structures present?\n  - Are naming and style conventions followed if the rubric mentions them?\n- For ESSAYS or WRITING, consider:\n  - Does it answer the prompt?\n  - Does it follow structure and length requirements?\n  - Does it include required evidence, explanation, or formatting specified in the rubric?\n\nOUTPUT FORMAT (PLAIN TEXT ONLY):\nReturn plain text with NO Markdown and NO bullets.\n\nFor each rubric criterion or row, output in this exact pattern:\n\nCriterion: <short name or description of the rubric criterion>\nScore: <earned_points>/<max_points>\nEvidence: <1\u20133 clear sentences citing specific features of the student work, or explaining what is missing>\n\nLeave exactly one blank line between criteria.\n\nAFTER ALL CRITERIA, add a final section:\n\nTotal Score: <sum_earned_points>/<sum_max_points>\n\nTeacher Comment Summary:\n<2\u20134 complete sentences that a teacher can paste into Canvas or Google Classroom. Mention strengths first, then specific areas to improve, and, if helpful, a next step or suggestion for the student.>\n\nFORMATTING RULES (VERY IMPORTANT):\n- Do NOT use ** or any other Markdown.\n- Do NOT use bullets like *, -, +.\n- Do NOT use numbered lists like 1), 2), etc.\n- Do NOT include code fences or backticks.\n- Use only normal sentences and line breaks.\n\nIf the rubric does not clearly state total points, make a reasonable interpretation, explain it briefly in the first Evidence line of the first criterion, and still follow the same output structure."

/-- Tail of `promptPost` from character 400. -/
def postTail4 : String :=
  " / Developing), or specific requirements, follow them.\n- If the rubric is vague, make a reasonable assumption and explain it briefly in the justification.\n- Never award full credit when clear rubric requirements are missing.\n- Partial credit is allowed when some, but not all, expectations for a criterion are met.\n- If something is completely missing, award 0 points for that criterion.\n\nTREAT DIFFERENT TYPES OF WORK CAREFULLY:\n- For CODE (C++, Java, Python, etc.), consider:\n  - Does it compile or look syntactically valid?\n  - Does it logically implement the required behavior?\n  - Are required methods, classes, variables, and control structures present?\n  - Are naming and style conventions followed if the rubric mentions them?\n- For ESSAYS or WRITING, consider:\n  - Does it answer the prompt?\n  - Does it follow structure and length requirements?\n  - Does it include required evidence, explanation, or formatting specified in the rubric?\n\nOUTPUT FORMAT (PLAIN TEXT ONLY):\nReturn plain text with NO Markdown and NO bullets.\n\nFor each rubric criterion or row, output in this exact pattern:\n\nCriterion: <short name or description of the rubric criterion>\nScore: <earned_points>/<max_points>\nEvidence: <1\u20133 clear sentences citing specific features of the student work, or explaining what is missing>\n\nLeave exactly one blank line between criteria.\n\nAFTER ALL CRITERIA, add a final section:\n\nTotal Score: <sum_earned_points>/<sum_max_points>\n\nTeacher Comment Summary:\n<2\u20134 complete sentences that a teacher can paste into Canvas or Google Classroom. Mention strengths first, then specific areas to improve, and, if helpful, a next step or suggestion for the student.>\n\nFORMATTING RULES (VERY IMPORTANT):\n- Do NOT use ** or any other Markdown.\n- Do NOT use bullets like *, -, +.\n- Do NOT use numbered lists like 1), 2), etc.\n- Do NOT include code fences or backticks.\n- Use only normal sentences and line breaks.\n\nIf the rubric does not clearly state total points, make a reasonable interpretation, explain it briefly in the first Evidence line of the first criterion, and still follow the same output structure."

/-- Tail of `promptPost` from character 500. -/
def postTail5 : String :=
  "ssumption and explain it briefly in the justification.\n- Never award full credit when clear rubric requirements are missing.\n- Partial credit is allowed when some, but not all, expectations for a criterion are met.\n- If something is completely missing, award 0 points for that criterion.\n\nTREAT DIFFERENT TYPES OF WORK CAREFULLY:\n- For CODE (C++, Java, Python, etc.), consider:\n  - Does it compile or look syntactically valid?\n  - Does it logically implement the required behavior?\n  - Are required methods, classes, variables, and control structures present?\n  - Are naming and style conventions followed if the rubric mentions them?\n- For ESSAYS or WRITING, consider:\n  - Does it answer the prompt?\n  - Does it follow structure and length requirements?\n  - Does it include required evidence, explanation, or formatting specified in the rubric?\n\nOUTPUT FORMAT (PLAIN TEXT ONLY):\nReturn plain text with NO Markdown and NO bullets.\n\nFor each rubric criterion or row, output in this exact pattern:\n\nCriterion: <short name or description of the rubric criterion>\nScore: <earned_points>/<max_points>\nEvidence: <1\u20133 clear sentences citing specific features of the student work, or explaining what is missing>\n\nLeave exactly one blank line between criteria.\n\nAFTER ALL CRITERIA, add a final section:\n\nTotal Score: <sum_earned_points>/<sum_max_points>\n\nTeacher Comment Summary:\n<2\u20134 complete sentences that a teacher can paste into Canvas or Google Classroom. Mention strengths first, then specific areas to improve, and, if helpful, a next step or suggestion for the student.>\n\nFORMATTING RULES (VERY IMPORTANT):\n- Do NOT use ** or any other Markdown.\n- Do NOT use bullets like *, -, +.\n- Do NOT use numbered lists like 1), 2), etc.\n- Do NOT include code fences or backticks.\n- Use only normal sentences and line breaks.\n\nIf the rubric does not clearly state total points, make a reasonable interpretation, explain it briefly in the first Evidence line of the first criterion, and still follow the same output structure."

/-- Tail of `promptPost` from character 600. -/
def postTail6 : String :=
  "equirements are missing.\n- Partial credit is allowed when some, but not all, expectations for a criterion are met.\n- If something is completely missing, award 0 points for that criterion.\n\nTREAT DIFFERENT TYPES OF WORK CAREFULLY:\n- For CODE (C++, Java, Python, etc.), consider:\n  - Does it compile or look syntactically valid?\n  - Does it logically implement the required behavior?\n  - Are required methods, classes, variables, and control structures present?\n  - Are naming and style conventions followed if the rubric mentions them?\n- For ESSAYS or WRITING, consider:\n  - Does it answer the prompt?\n  - Does it follow structure and length requirements?\n  - Does it include required evidence, explanation, or formatting specified in the rubric?\n\nOUTPUT FORMAT (PLAIN TEXT ONLY):\nReturn plain text with NO Markdown and NO bullets.\n\nFor each rubric criterion or row, output in this exact pattern:\n\nCriterion: <short name or description of the rubric criterion>\nScore: <earned_points>/<max_points>\nEvidence: <1\u20133 clear sentences citing specific features of the student work, or explaining what is missing>\n\nLeave exactly one blank line between criteria.\n\nAFTER ALL CRITERIA, add a final section:\n\nTotal Score: <sum_earned_points>/<sum_max_points>\n\nTeacher Comment Summary:\n<2\u20134 complete sentences that a teacher can paste into Canvas or Google Classroom. Mention strengths first, then specific areas to improve, and, if helpful, a next step or suggestion for the student.>\n\nFORMATTING RULES (VERY IMPORTANT):\n- Do NOT use ** or any other Markdown.\n- Do NOT use bullets like *, -, +.\n- Do NOT use numbered lists like 1), 2), etc.\n- Do NOT include code fences or backticks.\n- Use only normal sentences and line breaks.\n\nIf the rubric does not clearly state total points, make a reasonable interpretation, explain it briefly in the first Evidence line of the first criterion, and still follow the same output structure."

/-- Tail of `promptPost` from character 700. -/
def postTail7 : String :=
  "erion are met.\n- If something is completely missing, award 0 points for that criterion.\n\nTREAT DIFFERENT TYPES OF WORK CAREFULLY:\n- For CODE (C++, Java, Python, etc.), consider:\n  - Does it compile or look syntactically valid?\n  - Does it logically implement the required behavior?\n  - Are required methods, classes, variables, and control structures present?\n  - Are naming and style conventions followed if the rubric mentions them?\n- For ESSAYS or WRITING, consider:\n  - Does it answer the prompt?\n  - Does it follow structure and length requirements?\n  - Does it include required evidence, explanation, or formatting specified in the rubric?\n\nOUTPUT FORMAT (PLAIN TEXT ONLY):\nReturn plain text with NO Markdown and NO bullets.\n\nFor each rubric criterion or row, output in this exact pattern:\n\nCriterion: <short name or description of the rubric criterion>\nScore: <earned_points>/<max_points>\nEvidence: <1\u20133 clear sentences citing specific features of the student work, or explaining what is missing>\n\nLeave exactly one blank line between criteria.\n\nAFTER ALL CRITERIA, add a final section:\n\nTotal Score: <sum_earned_points>/<sum_max_points>\n\nTeacher Comment Summary:\n<2\u20134 complete sentences that a teacher can paste into Canvas or Google Classroom. Mention strengths first, then specific areas to improve, and, if helpful, a next step or suggestion for the student.>\n\nFORMATTING RULES (VERY IMPORTANT):\n- Do NOT use ** or any other Markdown.\n- Do NOT use bullets like *, -, +.\n- Do NOT use numbered lists like 1), 2), etc.\n- Do NOT include code fences or backticks.\n- Use only normal sentences and line breaks.\n\nIf the rubric does not clearly state total points, make a reasonable interpretation, explain it briefly in the first Evidence line of the first criterion, and still follow the same output structure."

/-- Tail of `promptPost` from character 800. -/
def postTail8 : String :=
  "RENT TYPES OF WORK CAREFULLY:\n- For CODE (C++, Java, Python, etc.), consider:\n  - Does it compile or look syntactically valid?\n  - Does it logically implement the required behavior?\n  - Are required methods, classes, variables, and control structures present?\n  - Are naming and style conventions followed if the rubric mentions them?\n- For ESSAYS or WRITING, consider:\n  - Does it answer the prompt?\n  - Does it follow structure and length requirements?\n  - Does it include required evidence, explanation, or formatting specified in the rubric?\n\nOUTPUT FORMAT (PLAIN TEXT ONLY):\nReturn plain text with NO Markdown and NO bullets.\n\nFor each rubric criterion or row, output in this exact pattern:\n\nCriterion: <short name or description of the rubric criterion>\nScore: <earned_points>/<max_points>\nEvidence: <1\u20133 clear sentences citing specific features of the student work, or explaining what is missing>\n\nLeave exactly one blank line between criteria.\n\nAFTER ALL CRITERIA, add a final section:\n\nTotal Score: <sum_earned_points>/<sum_max_points>\n\nTeacher Comment Summary:\n<2\u20134 complete sentences that a teacher can paste into Canvas or Google Classroom. Mention strengths first, then specific areas to improve, and, if helpful, a next step or suggestion for the student.>\n\nFORMATTING RULES (VERY IMPORTANT):\n- Do NOT use ** or any other Markdown.\n- Do NOT use bullets like *, -, +.\n- Do NOT use numbered lists like 1), 2), etc.\n- Do NOT include code fences or backticks.\n- Use only normal sentences and line breaks.\n\nIf the rubric does not clearly state total points, make a reasonable interpretation, explain it briefly in the first Evidence line of the first criterion, and still follow the same output structure."

/-- Tail of `promptPost` from character 900. -/
def postTail9 : String :=
  " look syntactically valid?\n  - Does it logically implement the required behavior?\n  - Are required methods, classes, variables, and control structures present?\n  - Are naming and style conventions followed if the rubric mentions them?\n- For ESSAYS or WRITING, consider:\n  - Does it answer the prompt?\n  - Does it follow structure and length requirements?\n  - Does it include required evidence, explanation, or formatting specified in the rubric?\n\nOUTPUT FORMAT (PLAIN TEXT ONLY):\nReturn plain text with NO Markdown and NO bullets.\n\nFor each rubric criterion or row, output in this exact pattern:\n\nCriterion: <short name or description of the rubric criterion>\nScore: <earned_points>/<max_points>\nEvidence: <1\u20133 clear sentences citing specific features of the student work, or explaining what is missing>\n\nLeave exactly one blank line between criteria.\n\nAFTER ALL CRITERIA, add a final section:\n\nTotal Score: <sum_earned_points>/<sum_max_points>\n\nTeacher Comment Summary:\n<2\u20134 complete sentences that a teacher can paste into Canvas or Google Classroom. Mention strengths first, then specific areas to improve, and, if helpful, a next step or suggestion for the student.>\n\nFORMATTING RULES (VERY IMPORTANT):\n- Do NOT use ** or any other Markdown.\n- Do NOT use bullets like *, -, +.\n- Do NOT use numbered lists like 1), 2), etc.\n- Do NOT include code fences or backticks.\n- Use only normal sentences and line breaks.\n\nIf the rubric does not clearly state total points, make a reasonable interpretation, explain it briefly in the first Evidence line of the first criterion, and still follow the same output structure."

/-- Tail of `promptPost` from character 1000. -/
def postTail10 : String :=
  "ethods, classes, variables, and control structures present?\n  - Are naming and style conventions followed if the rubric mentions them?\n- For ESSAYS or WRITING, consider:\n  - Does it answer the prompt?\n  - Does it follow structure and length requirements?\n  - Does it include required evidence, explanation, or formatting specified in the rubric?\n\nOUTPUT FORMAT (PLAIN TEXT ONLY):\nReturn plain text with NO Markdown and NO bullets.\n\nFor each rubric criterion or row, output in this exact pattern:\n\nCriterion: <short name or description of the rubric criterion>\nScore: <earned_points>/<max_points>\nEvidence: <1\u20133 clear sentences citing specific features of the student work, or explaining what is missing>\n\nLeave exactly one blank line between criteria.\n\nAFTER ALL CRITERIA, add a final section:\n\nTotal Score: <sum_earned_points>/<sum_max_points>\n\nTeacher Comment Summary:\n<2\u20134 complete sentences that a teacher can paste into Canvas or Google Classroom. Mention strengths first, then specific areas to improve, and, if helpful, a next step or suggestion for the student.>\n\nFORMATTING RULES (VERY IMPORTANT):\n- Do NOT use ** or any other Markdown.\n- Do NOT use bullets like *, -, +.\n- Do NOT use numbered lists like 1), 2), etc.\n- Do NOT include code fences or backticks.\n- Use only normal sentences and line breaks.\n\nIf the rubric does not clearly state total points, make a reasonable interpretation, explain it briefly in the first Evidence line of the first criterion, and still follow the same output structure."

/-- Tail of `promptPost` from character 1100. -/
def postTail11 : String :=
  "lowed if the rubric mentions them?\n- For ESSAYS or WRITING, consider:\n  - Does it answer the prompt?\n  - Does it follow structure and length requirements?\n  - Does it include required evidence, explanation, or formatting specified in the rubric?\n\nOUTPUT FORMAT (PLAIN TEXT ONLY):\nReturn plain text with NO Markdown and NO bullets.\n\nFor each rubric criterion or row, output in this exact pattern:\n\nCriterion: <short name or description of the rubric criterion>\nScore: <earned_points>/<max_points>\nEvidence: <1\u20133 clear sentences citing specific features of the student work, or explaining what is missing>\n\nLeave exactly one blank line between criteria.\n\nAFTER ALL CRITERIA, add a final section:\n\nTotal Score: <sum_earned_points>/<sum_max_points>\n\nTeacher Comment Summary:\n<2\u20134 complete sentences that a teacher can paste into Canvas or Google Classroom. Mention strengths first, then specific areas to improve, and, if helpful, a next step or suggestion for the student.>\n\nFORMATTING RULES (VERY IMPORTANT):\n- Do NOT use ** or any other Markdown.\n- Do NOT use bullets like *, -, +.\n- Do NOT use numbered lists like 1), 2), etc.\n- Do NOT include code fences or backticks.\n- Use only normal sentences and line breaks.\n\nIf the rubric does not clearly state total points, make a reasonable interpretation, explain it briefly in the first Evidence line of the first criterion, and still follow the same output structure."

/-- Tail of `promptPost` from character 1200. -/
def postTail12 : String :=
  "\n  - Does it follow structure and length requirements?\n  - Does it include required evidence, explanation, or formatting specified in the rubric?\n\nOUTPUT FORMAT (PLAIN TEXT ONLY):\nReturn plain text with NO Markdown and NO bullets.\n\nFor each rubric criterion or row, output in this exact pattern:\n\nCriterion: <short name or description of the rubric criterion>\nScore: <earned_points>/<max_points>\nEvidence: <1\u20133 clear sentences citing specific features of the student work, or explaining what is missing>\n\nLeave exactly one blank line between criteria.\n\nAFTER ALL CRITERIA, add a final section:\n\nTotal Score: <sum_earned_points>/<sum_max_points>\n\nTeacher Comment Summary:\n<2\u20134 complete sentences that a teacher can paste into Canvas or Google Classroom. Mention strengths first, then specific areas to improve, and, if helpful, a next step or suggestion for the student.>\n\nFORMATTING RULES (VERY IMPORTANT):\n- Do NOT use ** or any other Markdown.\n- Do NOT use bullets like *, -, +.\n- Do NOT use numbered lists like 1), 2), etc.\n- Do NOT include code fences or backticks.\n- Use only normal sentences and line breaks.\n\nIf the rubric does not clearly state total points, make a reasonable interpretation, explain it briefly in the first Evidence line of the first criterion, and still follow the same output structure."

/-- Tail of `promptPost` from character 1300. -/
def postTail13 : String :=
  "ation, or formatting specified in the rubric?\n\nOUTPUT FORMAT (PLAIN TEXT ONLY):\nReturn plain text with NO Markdown and NO bullets.\n\nFor each rubric criterion or row, output in this exact pattern:\n\nCriterion: <short name or description of the rubric criterion>\nScore: <earned_points>/<max_points>\nEvidence: <1\u20133 clear sentences citing specific features of the student work, or explaining what is missing>\n\nLeave exactly one blank line between criteria.\n\nAFTER ALL CRITERIA, add a final section:\n\nTotal Score: <sum_earned_points>/<sum_max_points>\n\nTeacher Comment Summary:\n<2\u20134 complete sentences that a teacher can paste into Canvas or Google Classroom. Mention strengths first, then specific areas to improve, and, if helpful, a next step or suggestion for the student.>\n\nFORMATTING RULES (VERY IMPORTANT):\n- Do NOT use ** or any other Markdown.\n- Do NOT use bullets like *, -, +.\n- Do NOT use numbered lists like 1), 2), etc.\n- Do NOT include code fences or backticks.\n- Use only normal sentences and line breaks.\n\nIf the rubric does not clearly state total points, make a reasonable interpretation, explain it briefly in the first Evidence line of the first criterion, and still follow the same output structure."

/-- Tail of `promptPost` from character 1400. -/
def postTail14 : String :=
  "th NO Markdown and NO bullets.\n\nFor each rubric criterion or row, output in this exact pattern:\n\nCriterion: <short name or description of the rubric criterion>\nScore: <earned_points>/<max_points>\nEvidence: <1\u20133 clear sentences citing specific features of the student work, or explaining what is missing>\n\nLeave exactly one blank line between criteria.\n\nAFTER ALL CRITERIA, add a final section:\n\nTotal Score: <sum_earned_points>/<sum_max_points>\n\nTeacher Comment Summary:\n<2\u20134 complete sentences that a teacher can paste into Canvas or Google Classroom. Mention strengths first, then specific areas to improve, and, if helpful, a next step or suggestion for the student.>\n\nFORMATTING RULES (VERY IMPORTANT):\n- Do NOT use ** or any other Markdown.\n- Do NOT use bullets like *, -, +.\n- Do NOT use numbered lists like 1), 2), etc.\n- Do NOT include code fences or backticks.\n- Use only normal sentences and line breaks.\n\nIf the rubric does not clearly state total points, make a reasonable interpretation, explain it briefly in the first Evidence line of the first criterion, and still follow the same output structure."

/-- Tail of `promptPost` from character 1500. -/
def postTail15 : String :=
  "terion: <short name or description of the rubric criterion>\nScore: <earned_points>/<max_points>\nEvidence: <1\u20133 clear sentences citing specific features of the student work, or explaining what is missing>\n\nLeave exactly one blank line between criteria.\n\nAFTER ALL CRITERIA, add a final section:\n\nTotal Score: <sum_earned_points>/<sum_max_points>\n\nTeacher Comment Summary:\n<2\u20134 complete sentences that a teacher can paste into Canvas or Google Classroom. Mention strengths first, then specific areas to improve, and, if helpful, a next step or suggestion for the student.>\n\nFORMATTING RULES (VERY IMPORTANT):\n- Do NOT use ** or any other Markdown.\n- Do NOT use bullets like *, -, +.\n- Do NOT use numbered lists like 1), 2), etc.\n- Do NOT include code fences or backticks.\n- Use only normal sentences and line breaks.\n\nIf the rubric does not clearly state total points, make a reasonable interpretation, explain it briefly in the first Evidence line of the first criterion, and still follow the same output structure."

/-- Tail of `promptPost` from character 1600. -/
def postTail16 : String :=
  "ence: <1\u20133 clear sentences citing specific features of the student work, or explaining what is missing>\n\nLeave exactly one blank line between criteria.\n\nAFTER ALL CRITERIA, add a final section:\n\nTotal Score: <sum_earned_points>/<sum_max_points>\n\nTeacher Comment Summary:\n<2\u20134 complete sentences that a teacher can paste into Canvas or Google Classroom. Mention strengths first, then specific areas to improve, and, if helpful, a next step or suggestion for the student.>\n\nFORMATTING RULES (VERY IMPORTANT):\n- Do NOT use ** or any other Markdown.\n- Do NOT use bullets like *, -, +.\n- Do NOT use numbered lists like 1), 2), etc.\n- Do NOT include code fences or backticks.\n- Use only normal sentences and line breaks.\n\nIf the rubric does not clearly state total points, make a reasonable interpretation, explain it briefly in the first Evidence line of the first criterion, and still follow the same output structure."

/-- Tail of `promptPost` from character 1700. -/
def postTail17 : String :=
  "ng>\n\nLeave exactly one blank line between criteria.\n\nAFTER ALL CRITERIA, add a final section:\n\nTotal Score: <sum_earned_points>/<sum_max_points>\n\nTeacher Comment Summary:\n<2\u20134 complete sentences that a teacher can paste into Canvas or Google Classroom. Mention strengths first, then specific areas to improve, and, if helpful, a next step or suggestion for the student.>\n\nFORMATTING RULES (VERY IMPORTANT):\n- Do NOT use ** or any other Markdown.\n- Do NOT use bullets like *, -, +.\n- Do NOT use numbered lists like 1), 2), etc.\n- Do NOT include code fences or backticks.\n- Use only normal sentences and line breaks.\n\nIf the rubric does not clearly state total points, make a reasonable interpretation, explain it briefly in the first Evidence line of the first criterion, and still follow the same output structure."

/-- Tail of `promptPost` from character 1800. -/
def postTail18 : String :=
  " Score: <sum_earned_points>/<sum_max_points>\n\nTeacher Comment Summary:\n<2\u20134 complete sentences that a teacher can paste into Canvas or Google Classroom. Mention strengths first, then specific areas to improve, and, if helpful, a next step or suggestion for the student.>\n\nFORMATTING RULES (VERY IMPORTANT):\n- Do NOT use ** or any other Markdown.\n- Do NOT use bullets like *, -, +.\n- Do NOT use numbered lists like 1), 2), etc.\n- Do NOT include code fences or backticks.\n- Use only normal sentences and line breaks.\n\nIf the rubric does not clearly state total points, make a reasonable interpretation, explain it briefly in the first Evidence line of the first criterion, and still follow the same output structure."

/-- Tail of `promptPost` from character 1900. -/
def postTail19 : String :=
  "a teacher can paste into Canvas or Google Classroom. Mention strengths first, then specific areas to improve, and, if helpful, a next step or suggestion for the student.>\n\nFORMATTING RULES (VERY IMPORTANT):\n- Do NOT use ** or any other Markdown.\n- Do NOT use bullets like *, -, +.\n- Do NOT use numbered lists like 1), 2), etc.\n- Do NOT include code fences or backticks.\n- Use only normal sentences and line breaks.\n\nIf the rubric does not clearly state total points, make a reasonable interpretation, explain it briefly in the first Evidence line of the first criterion, and still follow the same output structure."

/-- Tail of `promptPost` from character 2000. -/
def postTail20 : String :=
  " improve, and, if helpful, a next step or suggestion for the student.>\n\nFORMATTING RULES (VERY IMPORTANT):\n- Do NOT use ** or any other Markdown.\n- Do NOT use bullets like *, -, +.\n- Do NOT use numbered lists like 1), 2), etc.\n- Do NOT include code fences or backticks.\n- Use only normal sentences and line breaks.\n\nIf the rubric does not clearly state total points, make a reasonable interpretation, explain it briefly in the first Evidence line of the first criterion, and still follow the same output structure."

/-- Tail of `promptPost` from character 2100. -/
def postTail21 : String :=
  "TANT):\n- Do NOT use ** or any other Markdown.\n- Do NOT use bullets like *, -, +.\n- Do NOT use numbered lists like 1), 2), etc.\n- Do NOT include code fences or backticks.\n- Use only normal sentences and line breaks.\n\nIf the rubric does not clearly state total points, make a reasonable interpretation, explain it briefly in the first Evidence line of the first criterion, and still follow the same output structure."

/-- Tail of `promptPost` from character 2200. -/
def postTail22 : String :=
  "ed lists like 1), 2), etc.\n- Do NOT include code fences or backticks.\n- Use only normal sentences and line breaks.\n\nIf the rubric does not clearly state total points, make a reasonable interpretation, explain it briefly in the first Evidence line of the first criterion, and still follow the same output structure."

/-- Tail of `promptPost` from character 2300. -/
def postTail23 : String :=
  "d line breaks.\n\nIf the rubric does not clearly state total points, make a reasonable interpretation, explain it briefly in the first Evidence line of the first criterion, and still follow the same output structure."

/-- Tail of `promptPost` from character 2400. -/
def postTail24 : String :=
  " explain it briefly in the first Evidence line of the first criterion, and still follow the same output structure."

/-- Tail of `promptPost` from character 2500. -/
def postTail25 : String :=
  "put structure."

/-- Brace-freedom of the tail chunks of `promptPost`, established
suffix by suffix to keep every definitional comparison shallow. -/
theorem postTail25_bf : ∀ c ∈ (postTail25).data, c ≠ lbrace ∧ c ≠ rbrace := by
  decide

/-- Brace-freedom of `postTail24`. -/
theorem postTail24_bf : ∀ c ∈ (postTail24).data, c ≠ lbrace ∧ c ≠ rbrace := by
  rw [show postTail24 = " explain it briefly in the first Evidence line of the first criterion, and still follow the same out" ++ postTail25 from rfl]
  simp only [String.data_append, List.forall_mem_append]
  exact ⟨by decide, postTail25_bf⟩

/-- Brace-freedom of `postTail23`. -/
theorem postTail23_bf : ∀ c ∈ (postTail23).data, c ≠ lbrace ∧ c ≠ rbrace := by
  rw [show postTail23 = "d line breaks.\n\nIf the rubric does not clearly state total points, make a reasonable interpretation," ++ postTail24 from rfl]
  simp only [String.data_append, List.forall_mem_append]
  exact ⟨by decide, postTail24_bf⟩

/-- Brace-freedom of `postTail22`. -/
theorem postTail22_bf : ∀ c ∈ (postTail22).data, c ≠ lbrace ∧ c ≠ rbrace := by
  rw [show postTail22 = "ed lists like 1), 2), etc.\n- Do NOT include code fences or backticks.\n- Use only normal sentences an" ++ postTail23 from rfl]
  simp only [String.data_append, List.forall_mem_append]
  exact ⟨by decide, postTail23_bf⟩

/-- Brace-freedom of `postTail21`. -/
theorem postTail21_bf : ∀ c ∈ (postTail21).data, c ≠ lbrace ∧ c ≠ rbrace := by
  rw [show postTail21 = "TANT):\n- Do NOT use ** or any other Markdown.\n- Do NOT use bullets like *, -, +.\n- Do NOT use number" ++ postTail22 from rfl]
  simp only [String.data_append, List.forall_mem_append]
  exact ⟨by decide, postTail22_bf⟩

/-- Brace-freedom of `postTail20`. -/
theorem postTail20_bf : ∀ c ∈ (postTail20).data, c ≠ lbrace ∧ c ≠ rbrace := by
  rw [show postTail20 = " improve, and, if helpful, a next step or suggestion for the student.>\n\nFORMATTING RULES (VERY IMPOR" ++ postTail21 from rfl]
  simp only [String.data_append, List.forall_mem_append]
  exact ⟨by decide, postTail21_bf⟩

/-- Brace-freedom of `postTail19`. -/
theorem postTail19_bf : ∀ c ∈ (postTail19).data, c ≠ lbrace ∧ c ≠ rbrace := by
  rw [show postTail19 = "a teacher can paste into Canvas or Google Classroom. Mention strengths first, then specific areas to" ++ postTail20 from rfl]
  simp only [String.data_append, List.forall_mem_append]
  exact ⟨by decide, postTail20_bf⟩

/-- Brace-freedom of `postTail18`. -/
theorem postTail18_bf : ∀ c ∈ (postTail18).data, c ≠ lbrace ∧ c ≠ rbrace := by
  rw [show postTail18 = " Score: <sum_earned_points>/<sum_max_points>\n\nTeacher Comment Summary:\n<2\u20134 complete sentences that " ++ postTail19 from rfl]
  simp only [String.data_append, List.forall_mem_append]
  exact ⟨by decide, postTail19_bf⟩

/-- Brace-freedom of `postTail17`. -/
theorem postTail17_bf : ∀ c ∈ (postTail17).data, c ≠ lbrace ∧ c ≠ rbrace := by
  rw [show postTail17 = "ng>\n\nLeave exactly one blank line between criteria.\n\nAFTER ALL CRITERIA, add a final section:\n\nTotal" ++ postTail18 from rfl]
  simp only [String.data_append, List.forall_mem_append]
  exact ⟨by decide, postTail18_bf⟩

/-- Brace-freedom of `postTail16`. -/
theorem postTail16_bf : ∀ c ∈ (postTail16).data, c ≠ lbrace ∧ c ≠ rbrace := by
  rw [show postTail16 = "ence: <1\u20133 clear sentences citing specific features of the student work, or explaining what is missi" ++ postTail17 from rfl]
  simp only [String.data_append, List.forall_mem_append]
  exact ⟨by decide, postTail17_bf⟩

/-- Brace-freedom of `postTail15`. -/
theorem postTail15_bf : ∀ c ∈ (postTail15).data, c ≠ lbrace ∧ c ≠ rbrace := by
  rw [show postTail15 = "terion: <short name or description of the rubric criterion>\nScore: <earned_points>/<max_points>\nEvid" ++ postTail16 from rfl]
  simp only [String.data_append, List.forall_mem_append]
  exact ⟨by decide, postTail16_bf⟩

/-- Brace-freedom of `postTail14`. -/
theorem postTail14_bf : ∀ c ∈ (postTail14).data, c ≠ lbrace ∧ c ≠ rbrace := by
  rw [show postTail14 = "th NO Markdown and NO bullets.\n\nFor each rubric criterion or row, output in this exact pattern:\n\nCri" ++ postTail15 from rfl]
  simp only [String.data_append, List.forall_mem_append]
  exact ⟨by decide, postTail15_bf⟩

/-- Brace-freedom of `postTail13`. -/
theorem postTail13_bf : ∀ c ∈ (postTail13).data, c ≠ lbrace ∧ c ≠ rbrace := by
  rw [show postTail13 = "ation, or formatting specified in the rubric?\n\nOUTPUT FORMAT (PLAIN TEXT ONLY):\nReturn plain text wi" ++ postTail14 from rfl]
  simp only [String.data_append, List.forall_mem_append]
  exact ⟨by decide, postTail14_bf⟩

/-- Brace-freedom of `postTail12`. -/
theorem postTail12_bf : ∀ c ∈ (postTail12).data, c ≠ lbrace ∧ c ≠ rbrace := by
  rw [show postTail12 = "\n  - Does it follow structure and length requirements?\n  - Does it include required evidence, explan" ++ postTail13 from rfl]
  simp only [String.data_append, List.forall_mem_append]
  exact ⟨by decide, postTail13_bf⟩

/-- Brace-freedom of `postTail11`. -/
theorem postTail11_bf : ∀ c ∈ (postTail11).data, c ≠ lbrace ∧ c ≠ rbrace := by
  rw [show postTail11 = "lowed if the rubric mentions them?\n- For ESSAYS or WRITING, consider:\n  - Does it answer the prompt?" ++ postTail12 from rfl]
  simp only [String.data_append, List.forall_mem_append]
  exact ⟨by decide, postTail12_bf⟩

/-- Brace-freedom of `postTail10`. -/
theorem postTail10_bf : ∀ c ∈ (postTail10).data, c ≠ lbrace ∧ c ≠ rbrace := by
  rw [show postTail10 = "ethods, classes, variables, and control structures present?\n  - Are naming and style conventions fol" ++ postTail11 from rfl]
  simp only [String.data_append, List.forall_mem_append]
  exact ⟨by decide, postTail11_bf⟩

/-- Brace-freedom of `postTail9`. -/
theorem postTail9_bf : ∀ c ∈ (postTail9).data, c ≠ lbrace ∧ c ≠ rbrace := by
  rw [show postTail9 = " look syntactically valid?\n  - Does it logically implement the required behavior?\n  - Are required m" ++ postTail10 from rfl]
  simp only [String.data_append, List.forall_mem_append]
  exact ⟨by decide, postTail10_bf⟩

/-- Brace-freedom of `postTail8`. -/
theorem postTail8_bf : ∀ c ∈ (postTail8).data, c ≠ lbrace ∧ c ≠ rbrace := by
  rw [show postTail8 = "RENT TYPES OF WORK CAREFULLY:\n- For CODE (C++, Java, Python, etc.), consider:\n  - Does it compile or" ++ postTail9 from rfl]
  simp only [String.data_append, List.forall_mem_append]
  exact ⟨by decide, postTail9_bf⟩

/-- Brace-freedom of `postTail7`. -/
theorem postTail7_bf : ∀ c ∈ (postTail7).data, c ≠ lbrace ∧ c ≠ rbrace := by
  rw [show postTail7 = "erion are met.\n- If something is completely missing, award 0 points for that criterion.\n\nTREAT DIFFE" ++ postTail8 from rfl]
  simp only [String.data_append, List.forall_mem_append]
  exact ⟨by decide, postTail8_bf⟩

/-- Brace-freedom of `postTail6`. -/
theorem postTail6_bf : ∀ c ∈ (postTail6).data, c ≠ lbrace ∧ c ≠ rbrace := by
  rw [show postTail6 = "equirements are missing.\n- Partial credit is allowed when some, but not all, expectations for a crit" ++ postTail7 from rfl]
  simp only [String.data_append, List.forall_mem_append]
  exact ⟨by decide, postTail7_bf⟩

/-- Brace-freedom of `postTail5`. -/
theorem postTail5_bf : ∀ c ∈ (postTail5).data, c ≠ lbrace ∧ c ≠ rbrace := by
  rw [show postTail5 = "ssumption and explain it briefly in the justification.\n- Never award full credit when clear rubric r" ++ postTail6 from rfl]
  simp only [String.data_append, List.forall_mem_append]
  exact ⟨by decide, postTail6_bf⟩

/-- Brace-freedom of `postTail4`. -/
theorem postTail4_bf : ∀ c ∈ (postTail4).data, c ≠ lbrace ∧ c ≠ rbrace := by
  rw [show postTail4 = " / Developing), or specific requirements, follow them.\n- If the rubric is vague, make a reasonable a" ++ postTail5 from rfl]
  simp only [String.data_append, List.forall_mem_append]
  exact ⟨by decide, postTail5_bf⟩

/-- Brace-freedom of `postTail3`. -/
theorem postTail3_bf : ∀ c ∈ (postTail3).data, c ≠ lbrace ∧ c ≠ rbrace := by
  rw [show postTail3 = "NCIPLES:\n- Obey the rubric exactly. If it defines point values, levels (e.g., Exemplary / Proficient" ++ postTail4 from rfl]
  simp only [String.data_append, List.forall_mem_append]
  exact ⟨by decide, postTail4_bf⟩

/-- Brace-freedom of `postTail2`. -/
theorem postTail2_bf : ∀ c ∈ (postTail2).data, c ≠ lbrace ∧ c ≠ rbrace := by
  rw [show postTail2 = "quirements, constraints, or features in the rubric are present (rule checking).\n\nGENERAL GRADING PRI" ++ postTail3 from rfl]
  simp only [String.data_append, List.forall_mem_append]
  exact ⟨by decide, postTail3_bf⟩

/-- Brace-freedom of `postTail1`. -/
theorem postTail1_bf : ∀ c ∈ (postTail1).data, c ≠ lbrace ∧ c ≠ rbrace := by
  rw [show postTail1 = "ways look for:\n- What the work actually does or says (semantic understanding).\n- Whether specific re" ++ postTail2 from rfl]
  simp only [String.data_append, List.forall_mem_append]
  exact ⟨by decide, postTail2_bf⟩

/-- The text after the student placeholder contains no braces. -/
theorem promptPost_braceFree : ∀ c ∈ promptPost.data, c ≠ lbrace ∧ c ≠ rbrace := by
  rw [show promptPost = "\n\nYour job is to carefully read the ENTIRE student submission and grade it ONLY using the rubric. Al" ++ postTail1 from rfl]
  simp only [String.data_append, List.forall_mem_append]
  exact ⟨by decide, postTail1_bf⟩

/-- The text before the rubric placeholder contains no braces. -/
theorem promptPre_braceFree : ∀ c ∈ promptPre.data, c ≠ lbrace ∧ c ≠ rbrace := by
  decide

/-- The text between the two placeholders contains no braces. -/
theorem promptMid_braceFree : ∀ c ∈ promptMid.data, c ≠ lbrace ∧ c ≠ rbrace := by
  decide

/-- The keyword arguments `rubric=`, `student=` passed to `.format`. -/
def promptArgs (rubric_text student_text : String) : String → Option String :=
  fun n =>
    if n = "rubric" then some (pyEscapeBraces rubric_text)
    else if n = "student" then some (pyEscapeBraces student_text)
    else none

/-- On the default template the format call always succeeds, and the
resulting instruction is the three template chunks around the ESCAPED
rubric and submission (substituted values are not re-scanned, so the
doubled braces remain doubled). -/
theorem build_full_prompt_default_eq (r s : String) :
    build_full_prompt DEFAULT_PROMPT_TEMPLATE r s =
      .ok (promptPre ++ pyEscapeBraces r ++ promptMid ++ pyEscapeBraces s ++ promptPost) := by
  rw [default_template_split, build_full_prompt]
  have hpost : pyFmt (promptArgs r s) .norm promptPost.data = .ok promptPost.data := by
    have h0 : pyFmt (promptArgs r s) .norm [] = .ok [] := rfl
    simpa using pyFmt_lit_ok (promptArgs r s) promptPost.data [] []
      promptPost_braceFree h0
  have hstu : pyFmt (promptArgs r s) .norm
      (lbrace :: 's' :: "tudent".data ++ rbrace :: promptPost.data) =
      .ok ((pyEscapeBraces s).data ++ promptPost.data) :=
    pyFmt_field_ok (promptArgs r s) 's' "tudent".data promptPost.data
      promptPost.data (pyEscapeBraces s) (by decide) (by decide) (by decide)
      (by simp [promptArgs]) hpost
  have hmid : pyFmt (promptArgs r s) .norm
      (promptMid.data ++ lbrace :: 's' :: "tudent".data ++ rbrace :: promptPost.data) =
      .ok (promptMid.data ++ ((pyEscapeBraces s).data ++ promptPost.data)) :=
    pyFmt_lit_ok (promptArgs r s) promptMid.data _ _ promptMid_braceFree hstu
  have hrub : pyFmt (promptArgs r s) .norm
      (lbrace :: 'r' :: "ubric".data ++ rbrace ::
        (promptMid.data ++ lbrace :: 's' :: "tudent".data ++ rbrace :: promptPost.data)) =
      .ok ((pyEscapeBraces r).data ++
        (promptMid.data ++ ((pyEscapeBraces s).data ++ promptPost.data))) :=
    pyFmt_field_ok (promptArgs r s) 'r' "ubric".data _ _ (pyEscapeBraces r)
      (by decide) (by decide) (by decide) (by simp [promptArgs]) hmid
  have hpre : pyFmt (promptArgs r s) .norm
      (promptPre.data ++ (lbrace :: 'r' :: "ubric".data ++ rbrace ::
        (promptMid.data ++ lbrace :: 's' :: "tudent".data ++ rbrace :: promptPost.data))) =
      .ok (promptPre.data ++ ((pyEscapeBraces r).data ++
        (promptMid.data ++ ((pyEscapeBraces s).data ++ promptPost.data)))) :=
    pyFmt_lit_ok (promptArgs r s) promptPre.data _ _ promptPre_braceFree hrub
  have hshape : (promptPre ++ "\x7brubric\x7d" ++ promptMid ++ "\x7bstudent\x7d" ++
      promptPost).data =
      promptPre.data ++ (lbrace :: 'r' :: "ubric".data ++ rbrace ::
        (promptMid.data ++ lbrace :: 's' :: "tudent".data ++ rbrace :: promptPost.data)) := by
    simp only [String.data_append, List.append_assoc]
    rfl
  have hargs : (fun n =>
      if n = "rubric" then some (pyEscapeBraces r)
      else if n = "student" then some (pyEscapeBraces s)
      else none) = promptArgs r s := rfl
  rw [hargs, hshape, hpre]
  show Except.ok (String.mk _) = _
  apply congrArg
  apply String.ext
  simp [String.data_append]


/-- Python `str.replace` with a single-character pattern absent from the text is
the identity. -/
theorem pyReplace_nil_id (p0 : Char) (rep l : List Char)
    (h : ∀ c ∈ l, c ≠ p0) : pyReplace p0 [] rep l = l := by
  induction l with
  | nil => rw [pyReplace]
  | cons c cs ih =>
    rw [pyReplace.eq_def]
    simp only [List.isPrefixOf]
    rw [if_neg (by simp [h c (List.mem_cons_self c cs)])]
    rw [ih fun x hx => h x (List.mem_cons_of_mem c hx)]

/-- Escaping is the identity on brace-free text. -/
theorem pyEscapeBraces_id (s : String)
    (h : ∀ c ∈ s.data, c ≠ lbrace ∧ c ≠ rbrace) : pyEscapeBraces s = s := by
  unfold pyEscapeBraces
  rw [pyReplace_nil_id lbrace _ _ (fun c hc => (h c hc).1),
      pyReplace_nil_id rbrace _ _ (fun c hc => (h c hc).2)]

/-- Escaping doubles a lone opening brace. -/
theorem pyEscapeBraces_lbrace : pyEscapeBraces "\x7b" = "\x7b\x7b" := by
  rw [pyEscapeBraces]
  rw [show pyReplace lbrace [] [lbrace, lbrace] "\x7b".data = [lbrace, lbrace] from by
    rw [pyReplace.eq_def]
    simp [lbrace, pyReplace]]
  rw [show pyReplace rbrace [] [rbrace, rbrace] [lbrace, lbrace] = [lbrace, lbrace] from
    pyReplace_nil_id rbrace _ _ (by decide)]
  rfl

/-- Amended C1: with the default template, assemble never raises on ANY
rubric/submission (braces included), and the content appears with each of
its literal braces doubled — brace-free content appears verbatim. -/
theorem assemble_default_total_escaped (r s : String) :
    build_full_prompt DEFAULT_PROMPT_TEMPLATE r s =
      .ok (promptPre ++ pyEscapeBraces r ++ promptMid ++ pyEscapeBraces s ++ promptPost) ∧
    ((∀ c ∈ r.data, c ≠ lbrace ∧ c ≠ rbrace) → (∀ c ∈ s.data, c ≠ lbrace ∧ c ≠ rbrace) →
      build_full_prompt DEFAULT_PROMPT_TEMPLATE r s =
        .ok (promptPre ++ r ++ promptMid ++ s ++ promptPost)) := by
  refine ⟨build_full_prompt_default_eq r s, fun hr hs => ?_⟩
  rw [build_full_prompt_default_eq r s, pyEscapeBraces_id r hr, pyEscapeBraces_id s hs]

/-- Witness for the amended C1 theorem: brace-containing code is embedded
with its braces doubled, never raising. -/
theorem assemble_default_total_escaped_witness :
    build_full_prompt DEFAULT_PROMPT_TEMPLATE "Rubric: thesis (10 pts)" "int main() \x7b\x7d" =
      .ok (promptPre ++ pyEscapeBraces "Rubric: thesis (10 pts)" ++ promptMid ++
        pyEscapeBraces "int main() \x7b\x7d" ++ promptPost) ∧
    build_full_prompt DEFAULT_PROMPT_TEMPLATE "Rubric: thesis (10 pts)" "My thesis is clear." =
      .ok (promptPre ++ "Rubric: thesis (10 pts)" ++ promptMid ++
        "My thesis is clear." ++ promptPost) :=
  ⟨(assemble_default_total_escaped "Rubric: thesis (10 pts)" "int main() \x7b\x7d").1,
   (assemble_default_total_escaped "Rubric: thesis (10 pts)" "My thesis is clear.").2
     (by decide) (by decide)⟩

/-- Modelled from the spec: what C1 asserts `assemble` produces on the
default template — the rubric and submission appearing VERBATIM, the
escape doubling removed by the substitution step. -/
def assembleVerbatimSpec (rubric_text student_text : String) : String :=
  promptPre ++ rubric_text ++ promptMid ++ student_text ++ promptPost

/-- Counterexample to C1: for a rubric that is a single opening brace the
assembled instruction is NOT the verbatim substitution — `str.format`
copies keyword-argument values as-is, so the doubled brace introduced by
the escaping step survives into the instruction. -/
theorem assemble_not_verbatim_counterexample :
    build_full_prompt DEFAULT_PROMPT_TEMPLATE "\x7b" "x" ≠
      .ok (assembleVerbatimSpec "\x7b" "x") := by
  rw [build_full_prompt_default_eq]
  intro h
  have h2 : promptPre ++ pyEscapeBraces "\x7b" ++ promptMid ++ pyEscapeBraces "x" ++ promptPost
      = assembleVerbatimSpec "\x7b" "x" := Except.ok.inj h
  rw [pyEscapeBraces_lbrace, pyEscapeBraces_id "x" (by decide)] at h2
  have h3 := congrArg String.length h2
  simp only [assembleVerbatimSpec, String.length_append] at h3
  rw [show ("\x7b\x7b" : String).length = 2 from rfl,
      show ("\x7b" : String).length = 1 from rfl] at h3
  omega

/-! ### The grading endpoint (`grade`, lines 416-490)

The request-scoped pipeline: login check, quota gate, form fields, file
extraction, combination, validation, template assembly, model call,
sanitisation.  The only `try/except` in the handler wraps the model call;
a `str.format` exception from `build_full_prompt` (line 471) is outside
it and propagates out of the handler, modelled as `GradeOutcome.raised`. -/

/-- The multipart form of a grading request.  A file is its declared
filename plus raw bytes. -/
structure GradeForm where
  rubricText : String
  studentText : String
  promptTemplate : String
  rubricFile : Option (String × List Nat)
  studentFile : Option (String × List Nat)
  deriving DecidableEq

/-- What the route handler produces: an HTTP response (`jsonify` body with
status) or an exception that escapes the handler uncaught. -/
inductive GradeOutcome
  | http (status : Nat) (body : PyDict)
  | raised (msg : String)
  deriving DecidableEq

/-- The Combiner: `"\n\n".join(part for part in [a, b] if part).strip()`
for one input slot (both inputs already stripped by the caller). -/
def combineParts (a b : String) : String :=
  pyStrip (if a = "" then b else if b = "" then a else a ++ "\n\n" ++ b)

/-- The `/api/grade` handler.  `row?` is the logged-in user's row (`none`
when not logged in), `today` the process-local date, `attempt m p` the
outcome of the single request of model `m` on prompt `p`. -/
def grade (row? : Option UserRow) (today : String) (form : GradeForm)
    (docxRead : List Nat → Option (List String))
    (pdfRead : List Nat → Option (List (Option String)))
    (xlsxRead : List Nat → Option (List (List (Option PyVal))))
    (primary fallbk : String) (attempt : String → String → ModelOutcome) :
    GradeOutcome × Option UserRow :=
  match row? with
  | none => (.http 401 [("error", .s "Login required.")], none)
  | some _ =>
    let usage := update_user_usage row? today
    if (dlookup "error" usage.1).isSome then
      (.http 403 usage.1, usage.2)
    else
      let rubric_text := pyStrip form.rubricText
      let student_text := pyStrip form.studentText
      let prompt_template :=
        if pyStrip form.promptTemplate = "" then DEFAULT_PROMPT_TEMPLATE
        else pyStrip form.promptTemplate
      let rubric_file_text :=
        match form.rubricFile with
        | some (fn, raw) =>
          if fn ≠ "" then
            pyStrip (extract_text_from_file docxRead pdfRead xlsxRead fn raw)
          else ""
        | none => ""
      let student_file_text :=
        match form.studentFile with
        | some (fn, raw) =>
          if fn ≠ "" then
            pyStrip (extract_text_from_file docxRead pdfRead xlsxRead fn raw)
          else ""
        | none => ""
      let combined_rubric := combineParts rubric_text rubric_file_text
      let combined_student := combineParts student_text student_file_text
      if combined_rubric = "" then
        (.http 400 [("error",
          .s "Rubric is required. Paste rubric text or upload a rubric file.")], usage.2)
      else if combined_student = "" then
        (.http 400 [("error",
          .s "Student work is required. Paste student text or upload a student file.")], usage.2)
      else
        match build_full_prompt prompt_template combined_rubric combined_student with
        | .error e => (.raised e, usage.2)
        | .ok full_prompt =>
          match (call_model primary fallbk (fun m => attempt m full_prompt)).1 with
          | .error e =>
            (.http 500 [("error", .s ("Error while calling AI model: " ++ e))], usage.2)
          | .ok raw_result =>
            (.http 200 [("result", .s (sanitizeResult raw_result)),
                        ("plan", (dlookup "plan" usage.1).getD (.s "")),
                        ("uses_today", (dlookup "uses_today" usage.1).getD (.i 0)),
                        ("limit", (dlookup "limit" usage.1).getD (.i 0))], usage.2)

/-- Counterexample to C9: the quota-denial dict carries ONLY the
human-readable message — it has no usage-count and no limit entry. -/
theorem quota_denial_lacks_usage_counterexample :
    (update_user_usage (some ⟨5, some "2026-10-12", "free"⟩) "2026-10-12").1 =
      [("error", .s freeLimitMsg)] ∧
    dlookup "uses_today"
      (update_user_usage (some ⟨5, some "2026-10-12", "free"⟩) "2026-10-12").1 = none ∧
    dlookup "limit"
      (update_user_usage (some ⟨5, some "2026-10-12", "free"⟩) "2026-10-12").1 = none := by
  decide

/-- Amended C9: the denial carries only the message (no usage, no limit);
the endpoint returns it as a 403 immediately — the response and the
stored row are independent of the rest of the request, and nothing else
runs. -/
theorem quota_denial_message_only (today : String) (r : UserRow)
    (hplan : r.plan = "free") (hdate : r.last_use_date = some today)
    (huses : FREE_DAILY_LIMIT ≤ r.uses_today) :
    update_user_usage (some r) today = ([("error", .s freeLimitMsg)], some r) ∧
    dlookup "uses_today" (update_user_usage (some r) today).1 = none ∧
    dlookup "limit" (update_user_usage (some r) today).1 = none ∧
    ∀ form docxRead pdfRead xlsxRead primary fallbk attempt,
      grade (some r) today form docxRead pdfRead xlsxRead primary fallbk attempt =
        (.http 403 [("error", .s freeLimitMsg)], some r) := by
  have hu : update_user_usage (some r) today = ([("error", .s freeLimitMsg)], some r) := by
    simp [update_user_usage, hplan, hdate, huses]
  refine ⟨hu, by rw [hu]; rfl, by rw [hu]; rfl, ?_⟩
  intro form docxRead pdfRead xlsxRead primary fallbk attempt
  rw [grade]
  rw [hu]
  rfl

/-- Witness for the amended C9 theorem at a concrete user at the limit. -/
theorem quota_denial_message_only_witness :
    grade (some ⟨5, some "2026-10-12", "free"⟩) "2026-10-12"
        ⟨"r", "s", "", none, none⟩ (fun _ => none) (fun _ => none) (fun _ => none)
        "gpt-4o" "gpt-4o-mini" (fun _ _ => .success "graded") =
      (.http 403 [("error", .s freeLimitMsg)], some ⟨5, some "2026-10-12", "free"⟩) :=
  (quota_denial_message_only "2026-10-12" ⟨5, some "2026-10-12", "free"⟩
      rfl rfl (by decide)).2.2.2
    ⟨"r", "s", "", none, none⟩ (fun _ => none) (fun _ => none) (fun _ => none)
    "gpt-4o" "gpt-4o-mini" (fun _ _ => .success "graded")

/-- C10: only the rubric and submission are brace-escaped, not the
template: a caller-supplied template with a stray `\x7d` or an unknown
placeholder makes `str.format` raise, and the grading endpoint does not
catch it — the exception propagates (and the quota was already consumed). -/
theorem custom_template_error_uncaught :
    build_full_prompt "\x7d" "r" "s" =
      .error "ValueError: Single \x7d encountered in format string" ∧
    build_full_prompt "\x7bfoo\x7d" "r" "s" = .error "KeyError: foo" ∧
    grade (some ⟨0, none, "free"⟩) "2026-10-12"
        ⟨"r", "s", "\x7bfoo\x7d", none, none⟩
        (fun _ => none) (fun _ => none) (fun _ => none)
        "gpt-4o" "gpt-4o-mini" (fun _ _ => .success "graded") =
      (.raised "KeyError: foo", some ⟨1, some "2026-10-12", "free"⟩) :=
  ⟨rfl, rfl, rfl⟩


end AutoGrader
